import Mathlib

/-!
Verification development for the campaign/flow/offer reconciliation service
(`campaigns` Django app: `keitaro_api.py`, `models.py`, `services.py`).

The remote-API gateway is embedded as pure functions over a small JSON model;
the service layer is embedded as functions over an explicit database state
(`DB`), with the remote API abstracted as an oracle structure (`Api`) whose
fields describe the outcome of each remote call.  Python exceptions are
modelled with `Except`/`Option`; Python truthiness of ints, strings and
optionals is modelled explicitly (`truthyInt?`, `truthyStr`, ...).

Row updates performed in the source through `obj.save()` on an object that was
fetched by a key filter are modelled as key-based list updates; the database
schema (`models.py`) declares `unique_together = ['campaign', 'offer_id']`, so
on reachable states the key identifies the row.
-/

set_option maxHeartbeats 1000000

namespace KeitaroSpec

/-! ### JSON model (for the gateway layer, `keitaro_api.py`) -/

inductive Json where
  | null
  | bool (b : Bool)
  | num (n : Int)
  | str (s : String)
  | arr (xs : List Json)
  | obj (fields : List (String × Json))
  deriving Repr

/-- Python `d.get(k)` / `k in d` on a JSON object (first binding wins). -/
def Json.lookup : Json → String → Option Json
  | .obj fs, k => (fs.find? (fun kv => kv.1 == k)).map (fun kv => kv.2)
  | _, _ => none

/-! ### Gateway: `KeitaroAPI._make_request`

The transport outcome is the data of one HTTP exchange: either a response
with a status code and a parsed body (`none` body = empty content), or a
transport failure with no response attached.  `requests`'
`raise_for_status` raises exactly for statuses >= 400. -/

inductive HttpOutcome where
  | resp (status : Nat) (body : Option Json)
  | netErr
  deriving Repr

/-- Structured failure raised by `_make_request` (status when a response
was attached to the exception, as in the source's `e.response`). -/
structure ApiFailure where
  status : Option Nat
  deriving Repr, DecidableEq

/-- `KeitaroAPI._make_request` (keitaro_api.py lines 31-99): on a
non-error status return the parsed body (`None` for empty content);
on an HTTP error status raise, except that with `allow_500` a status of
exactly 500 is converted into a `None` return. -/
def make_request (allow_500 : Bool) (o : HttpOutcome) : Except ApiFailure (Option Json) :=
  match o with
  | .resp status body =>
    if status < 400 then
      Except.ok body
    else if allow_500 && status == 500 then
      Except.ok none
    else
      Except.error { status := some status }
  | .netErr => Except.error { status := none }

/-! ### Gateway: list-endpoint response normalization -/

/-- `KeitaroAPI.get_campaigns` response normalization (keitaro_api.py
lines 142-159): bare list as-is; object: `data` key first, then
`campaigns` key, each only when its value is a list; else empty list. -/
def getCampaignsNorm (resp : Option Json) : Json :=
  match resp with
  | some (Json.arr xs) => Json.arr xs
  | some (Json.obj fs) =>
    match (Json.obj fs).lookup "data" with
    | some (Json.arr l) => Json.arr l
    | some _ => Json.arr []
    | none =>
      match (Json.obj fs).lookup "campaigns" with
      | some (Json.arr l) => Json.arr l
      | some _ => Json.arr []
      | none => Json.arr []
  | _ => Json.arr []

/-- `KeitaroAPI.get_campaign_streams` normalization (lines 174-194):
like campaigns but with the `streams` endpoint key. -/
def getCampaignStreamsNorm (resp : Option Json) : Json :=
  match resp with
  | some (Json.arr xs) => Json.arr xs
  | some (Json.obj fs) =>
    match (Json.obj fs).lookup "data" with
    | some (Json.arr l) => Json.arr l
    | some _ => Json.arr []
    | none =>
      match (Json.obj fs).lookup "streams" with
      | some (Json.arr l) => Json.arr l
      | some _ => Json.arr []
      | none => Json.arr []
  | _ => Json.arr []

/-- `KeitaroAPI.get_stream_schemas` normalization (lines 196-203):
bare list as-is; object: the raw value under `schemas` when the key is
present (`response.get('schemas', []) if 'schemas' in response else []`
-- no `data` unwrapping and no list check on the value); else empty. -/
def getStreamSchemasNorm (resp : Option Json) : Json :=
  match resp with
  | some (Json.arr xs) => Json.arr xs
  | some (Json.obj fs) =>
    match (Json.obj fs).lookup "schemas" with
    | some v => v
    | none => Json.arr []
  | _ => Json.arr []

/-- `KeitaroAPI.get_streams_actions` normalization (lines 205-212). -/
def getStreamsActionsNorm (resp : Option Json) : Json :=
  match resp with
  | some (Json.arr xs) => Json.arr xs
  | some (Json.obj fs) =>
    match (Json.obj fs).lookup "actions" with
    | some v => v
    | none => Json.arr []
  | _ => Json.arr []

/-- `KeitaroAPI.get_stream_filters` normalization (lines 214-226); the
surrounding try/except only adds totality. -/
def getStreamFiltersNorm (resp : Option Json) : Json :=
  match resp with
  | some (Json.arr xs) => Json.arr xs
  | some (Json.obj fs) =>
    match (Json.obj fs).lookup "filters" with
    | some v => v
    | none => Json.arr []
  | _ => Json.arr []

/-- `KeitaroAPI.get_offers` normalization (lines 327-330): only a bare
list is accepted; any other shape (including a `data`-wrapped object)
yields the empty list. -/
def getOffersNorm (resp : Option Json) : Json :=
  match resp with
  | some (Json.arr xs) => Json.arr xs
  | _ => Json.arr []

/-! ### Python truthiness and string helpers -/

/-- Truthiness of a possibly-missing Python int (`None` and `0` are falsy). -/
def truthyInt? : Option Int → Bool
  | some v => v != 0
  | none => false

/-- Truthiness of a Python string (empty string is falsy). -/
def truthyStr (s : String) : Bool := s != ""

/-- Truthiness of a possibly-missing Python string. -/
def truthyOptStr : Option String → Bool
  | some s => s != ""
  | none => false

/-- Python `a or b` on possibly-missing ints. -/
def pyOr (a b : Option Int) : Option Int := if truthyInt? a then a else b

/-- ASCII lower-casing of one character, modelling Python `str.lower()` on
the ASCII range the app's names use. -/
def lowChar (c : Char) : Char :=
  if 65 ≤ c.toNat ∧ c.toNat ≤ 90 then Char.ofNat (c.toNat + 32) else c

/-- ASCII upper-casing of one character, modelling Python `str.upper()`. -/
def upChar (c : Char) : Char :=
  if 97 ≤ c.toNat ∧ c.toNat ≤ 122 then Char.ofNat (c.toNat - 32) else c

/-- `str.lower()` (ASCII model). -/
def lowerStr (s : String) : String := ⟨s.data.map lowChar⟩

/-- `str.upper()` (ASCII model). -/
def upperStr (s : String) : String := ⟨s.data.map upChar⟩

/-- The first list is an initial segment of the second (character lists). -/
def charsStartWith : List Char → List Char → Bool
  | [], _ => true
  | _ :: _, [] => false
  | n :: ns, h :: hs => n == h && charsStartWith ns hs

/-- The needle (second list) occurs contiguously in the hay (first list). -/
def charsContain : List Char → List Char → Bool
  | [], needle => needle.isEmpty
  | c :: rest, needle => charsStartWith needle (c :: rest) || charsContain rest needle

/-- Python `needle in hay` substring test. -/
def strContains (hay needle : String) : Bool :=
  charsContain hay.data needle.data

/-- Case-insensitive substring test, `needle.lower() in hay.lower()`. -/
def lowerContains (hay needle : String) : Bool :=
  strContains (lowerStr hay) (lowerStr needle)

/-- Python whitespace for `str.strip()` (ASCII model). -/
def isWS (c : Char) : Bool := c == ' ' || c == '\t' || c == '\n' || c == '\r'

/-- `str.strip()` on character lists. -/
def stripChars (cs : List Char) : List Char :=
  ((cs.dropWhile isWS).reverse.dropWhile isWS).reverse

/-- `s.split(',')` on character lists, keeping empty pieces
(Python `str.split` with an explicit separator). -/
def splitCommaAux : List Char → List Char → List (List Char)
  | [], acc => [acc.reverse]
  | c :: rest, acc =>
    if c == ',' then acc.reverse :: splitCommaAux rest []
    else splitCommaAux rest (c :: acc)

/-- Decimal digit accumulation; `none` on a non-digit character. -/
def parseNatAux : List Char → Nat → Option Nat
  | [], acc => some acc
  | c :: rest, acc =>
    if 48 ≤ c.toNat ∧ c.toNat ≤ 57 then parseNatAux rest (acc * 10 + (c.toNat - 48))
    else none

/-- Python `int(s)` on an optionally signed decimal literal; `none`
models the `ValueError` on any other shape. -/
def parseIntChars : List Char → Option Int
  | [] => none
  | '-' :: rest =>
    if rest.isEmpty then none else (parseNatAux rest 0).map (fun n => -(n : Int))
  | '+' :: rest =>
    if rest.isEmpty then none else (parseNatAux rest 0).map (fun n => (n : Int))
  | cs => (parseNatAux cs 0).map (fun n => (n : Int))

/-! ### Entity store (`models.py`): rows and database state

Timestamps are abstract `Nat` clock values; operations that call
`obj.save()` take a `now` argument and set `updated_at := now` (Django
`auto_now`), while queryset `.update(...)` does not touch timestamps. -/

structure CampaignRow where
  id : Nat
  keitaro_id : Option Int
  name : String
  geo : String
  offer_id : Int
  domain : String
  group : String
  source : String
  created_at : Nat
  updated_at : Nat
  deriving Repr, DecidableEq

structure FlowRow where
  id : Nat
  campaign : Nat
  keitaro_id : Option Int
  name : String
  flow_type : String
  country : String
  redirect_url : String
  is_published : Bool
  has_changes : Bool
  created_at : Nat
  updated_at : Nat
  deriving Repr, DecidableEq

structure OfferRow where
  id : Nat
  campaign : Nat
  flow : Option Nat
  offer_id : Int
  offer_name : String
  weight : Int
  weight_pinned : Bool
  status : String
  created_at : Nat
  updated_at : Nat
  deriving Repr, DecidableEq

structure DB where
  campaigns : List CampaignRow
  flows : List FlowRow
  offers : List OfferRow
  next_id : Nat
  deriving Repr, DecidableEq

/-- Update every offer row matching `p` (the source saves a row fetched by a
key filter; `unique_together = ['campaign', 'offer_id']` makes the key
identify the row on reachable states). -/
def DB.updOffers (db : DB) (p : OfferRow → Bool) (f : OfferRow → OfferRow) : DB :=
  { db with offers := db.offers.map (fun r => if p r then f r else r) }

/-- Update every flow row matching `p`. -/
def DB.updFlows (db : DB) (p : FlowRow → Bool) (f : FlowRow → FlowRow) : DB :=
  { db with flows := db.flows.map (fun r => if p r then f r else r) }

/-- Insert a fresh offer row (primary key from `next_id`). -/
def DB.createOffer (db : DB) (mk : Nat → OfferRow) : DB × OfferRow :=
  let r := mk db.next_id
  ({ db with offers := db.offers ++ [r], next_id := db.next_id + 1 }, r)

/-- Insert a fresh flow row. -/
def DB.createFlow (db : DB) (mk : Nat → FlowRow) : DB × FlowRow :=
  let r := mk db.next_id
  ({ db with flows := db.flows ++ [r], next_id := db.next_id + 1 }, r)

/-- Insert a fresh campaign row. -/
def DB.createCampaign (db : DB) (mk : Nat → CampaignRow) : DB × CampaignRow :=
  let r := mk db.next_id
  ({ db with campaigns := db.campaigns ++ [r], next_id := db.next_id + 1 }, r)

/-- `CampaignOffer.objects.filter(campaign=..., offer_id=...).first()`. -/
def findOfferByKey (db : DB) (cid : Nat) (oid : Int) : Option OfferRow :=
  db.offers.find? (fun r => r.campaign == cid && r.offer_id == oid)

/-- `CampaignOffer.objects.filter(campaign=..., offer_id=..., status='removed').first()`
as an existence test. -/
def hasRemovedOffer (db : DB) (cid : Nat) (oid : Int) : Bool :=
  db.offers.any (fun r => r.campaign == cid && r.offer_id == oid && r.status == "removed")

/-! ### Remote data as seen by the service layer

`RemoteStream` models one stream object from `get_campaign_streams`;
`action_payload` may be a JSON object, a JSON-encoded string (whose parse is
carried as data), or some other non-dict value. -/

inductive RemoteOfferEntry where
  | dict (offer_id : Option Int) (id : Option Int) (weight : Option Int) (share : Option Int)
  | nonDict
  deriving Repr, DecidableEq

structure PayloadDict where
  offers : List RemoteOfferEntry := []
  url : String := ""
  deriving Repr, DecidableEq

inductive RemotePayload where
  | dict (d : PayloadDict)
  | jsonStr (parsed : Option PayloadDict)
  | other
  deriving Repr, DecidableEq

structure RemoteFilter where
  name : String := ""
  payloadStr : String := ""
  deriving Repr, DecidableEq

structure RemoteStream where
  id : Option Int := none
  name : String := ""
  action_payload : RemotePayload := .dict {}
  offers : List RemoteOfferEntry := []
  filters : List RemoteFilter := []
  deriving Repr, DecidableEq

/-- Payload as a dict, `None` when a `.get` on it would raise
(`AttributeError` on a str or other non-dict payload). -/
def payloadAsDict? : RemotePayload → Option PayloadDict
  | .dict d => some d
  | _ => none

/-- Offers extracted from the payload with the string-tolerant logic of
`fetch_streams_from_keitaro` (services.py lines 598-610). -/
def payloadOffersTolerant : RemotePayload → List RemoteOfferEntry
  | .dict d => d.offers
  | .jsonStr (some d) => d.offers
  | .jsonStr none => []
  | .other => []

/-! ### Remote API oracle for the service layer

Each field gives the outcome of one remote call; `ApiErr.is500` records
whether `'500' in str(e)` (the test the service layer performs on caught
exceptions). -/

/-- One entry of the `/stream_schemas` or `/streams_actions` catalog:
either a dict (with optional `key`, `value`, `type` fields) or some other
JSON value, of which the source only ever takes `str(...)`. -/
inductive CatalogEntry where
  | dict (key : Option String) (value : Option String) (typ : Option String)
  | raw (s : String)
  deriving Repr, DecidableEq

structure FilterSpec where
  name : String
  mode : Option String := none
  op : Option String := none
  value : Option String := none
  payload : Option (List String) := none
  deriving Repr, DecidableEq

structure FmtEntry where
  idKey : String
  oid : Int
  wKey : String
  w : Int
  deriving Repr, DecidableEq

inductive ReqPayload where
  | rawStr (s : String)
  | urlDict (url : String)
  | offersDict (entries : List FmtEntry)
  deriving Repr, DecidableEq

structure CreateFlowReq where
  campaign_id : Option Int
  name : String
  action_type : Option String
  payload : ReqPayload
  schema : String
  filters : Option (List FilterSpec)
  deriving Repr, DecidableEq

structure FlowResp where
  id : Option Int := none
  name : Option String := none
  deriving Repr, DecidableEq

structure CampaignResp where
  id : Option Int := none
  deriving Repr, DecidableEq

structure ApiErr where
  is500 : Bool
  deriving Repr, DecidableEq

structure Api where
  createCampaign : Except ApiErr (Option CampaignResp)
  createFlow : CreateFlowReq → Except ApiErr (Option FlowResp)
  getCampaignStreams : Option Int → Except ApiErr (List RemoteStream)
  getOfferName : Int → String
  getStreamSchemas : Except ApiErr (List CatalogEntry)
  getStreamsActions : Except ApiErr (List CatalogEntry)

/-! ### Schema/action catalog resolution (services.py lines 22-93) -/

/-- `CampaignService._get_schemas`: fetch failure degrades to `[]`. -/
def getSchemasCached (api : Api) : List CatalogEntry :=
  match api.getStreamSchemas with
  | .ok l => l
  | .error _ => []

/-- `CampaignService._get_actions`. -/
def getActionsCached (api : Api) : List CatalogEntry :=
  match api.getStreamsActions with
  | .ok l => l
  | .error _ => []

/-- `CampaignService._get_schema_for_offers`. -/
def schemaForOffers (schemas : List CatalogEntry) : String :=
  match schemas.find? (fun e => match e with
      | .dict _ v _ => (v.getD "") == "landings"
      | .raw _ => false) with
  | some _ => "landings"
  | none =>
    match schemas with
    | [] => "landings"
    | .dict _ v _ :: _ => v.getD "landings"
    | .raw s :: _ => s

/-- `CampaignService._get_schema_for_redirect`. -/
def schemaForRedirect (schemas : List CatalogEntry) : String :=
  match schemas.find? (fun e => match e with
      | .dict k v _ => (v.getD "") == "redirect" || (k.getD "") == "redirect"
      | .raw _ => false) with
  | some (.dict k v _) =>
    let sv := v.getD ""
    if truthyStr sv then sv else k.getD ""
  | some (.raw s) => s
  | none =>
    match schemas with
    | [] => "redirect"
    | .dict k v _ :: _ => v.getD (k.getD "redirect")
    | .raw s :: _ => s

/-- `CampaignService._get_action_type_for_redirect`. -/
def actionTypeForRedirect (actions : List CatalogEntry) : String :=
  match actions.find? (fun e => match e with
      | .dict k _ t => (k.getD "") == "http" && (t.getD "") == "redirect"
      | .raw _ => false) with
  | some _ => "http"
  | none =>
    match actions.find? (fun e => match e with
        | .dict k _ _ =>
          (k.getD "") == "http" || (k.getD "") == "meta" || (k.getD "") == "js"
        | .raw _ => false) with
    | some (.dict k _ _) => k.getD ""
    | _ => "http"

/-- `CampaignService._get_action_type_for_offers` delegates to the redirect
resolution. -/
def actionTypeForOffers (actions : List CatalogEntry) : String :=
  actionTypeForRedirect actions

/-! ### `CampaignService.recalculate_weights` (services.py lines 551-571) -/

/-- Partition the flow's active offers into pinned and unpinned; if there is
no unpinned offer, do nothing; otherwise set every unpinned active offer's
weight to the base weight 1.  (The source also computes `pinned_total`, which
is unused.) -/
def recalculate_weights (db : DB) (flowId : Nat) (now : Nat) : DB :=
  let unpinned := db.offers.filter (fun r =>
    r.flow == some flowId && r.status == "active" && !r.weight_pinned)
  if unpinned.isEmpty then db
  else
    db.updOffers
      (fun r => r.flow == some flowId && r.status == "active" && !r.weight_pinned)
      (fun r => { r with weight := 1, updated_at := now })

/-! ### Offer lifecycle (services.py lines 441-549) -/

/-- `CampaignService.add_offer_to_campaign` (lines 441-499): fetch the offer
name best-effort; if a row with this (campaign, offer_id) exists (possibly
`removed`), update it in place -- `flow=None`, new name/weight, status
`active`; otherwise create a fresh unbound active row.  The trailing
read-back (lines 488-497) only logs. -/
def add_offer_to_campaign (api : Api) (db : DB) (cid : Nat) (oid : Int)
    (weight : Int) (now : Nat) : DB × OfferRow :=
  let offer_name := api.getOfferName oid
  match findOfferByKey db cid oid with
  | some ex =>
    let ex' := { ex with
      flow := none, offer_name := offer_name, weight := weight,
      status := "active", updated_at := now }
    (db.updOffers (fun r => r.campaign == cid && r.offer_id == oid)
      (fun r => { r with
        flow := none, offer_name := offer_name, weight := weight,
        status := "active", updated_at := now }), ex')
  | none =>
    db.createOffer (fun i =>
      ⟨i, cid, none, oid, offer_name, weight, false, "active", now, now⟩)

/-- `CampaignService.remove_offer_from_campaign` (lines 501-525): mark the
row `removed`; when it is bound to a flow, mark that flow dirty and
recalculate sibling weights. -/
def remove_offer_from_campaign (db : DB) (cid : Nat) (oid : Int) (now : Nat) :
    Except String DB :=
  match findOfferByKey db cid oid with
  | none => Except.error "offer not found"
  | some off =>
    let db1 := db.updOffers (fun r => r.campaign == cid && r.offer_id == oid)
      (fun r => { r with status := "removed", updated_at := now })
    match off.flow with
    | some fid =>
      let db2 := db1.updFlows (fun f => f.id == fid)
        (fun f => { f with has_changes := true, updated_at := now })
      Except.ok (recalculate_weights db2 fid now)
    | none => Except.ok db1

/-- `CampaignService.bring_back_offer` (lines 527-549): symmetric to remove. -/
def bring_back_offer (db : DB) (cid : Nat) (oid : Int) (now : Nat) :
    Except String (DB × OfferRow) :=
  match findOfferByKey db cid oid with
  | none => Except.error "offer not found"
  | some off =>
    let off' := { off with status := "active", updated_at := now }
    let db1 := db.updOffers (fun r => r.campaign == cid && r.offer_id == oid)
      (fun r => { r with status := "active", updated_at := now })
    match off.flow with
    | some fid =>
      let db2 := db1.updFlows (fun f => f.id == fid)
        (fun f => { f with has_changes := true, updated_at := now })
      Except.ok (recalculate_weights db2 fid now, off')
    | none => Except.ok (db1, off')

/-- Number of rows carrying one (campaign, offer_id) key; the schema's
`unique_together` keeps this at most 1 on reachable states. -/
def offerKeyCount (db : DB) (cid : Nat) (oid : Int) : Nat :=
  (db.offers.filter (fun r => r.campaign == cid && r.offer_id == oid)).length

/-! ### Drift sync (`fetch_streams_from_keitaro`, services.py lines 573-716) -/

/-- `offers = offers_in_stream or offers_in_payload` (lines 609-611): the
root offer list when non-empty, else the payload's. -/
def effOffers (sd : RemoteStream) : List RemoteOfferEntry :=
  if sd.offers.isEmpty then payloadOffersTolerant sd.action_payload else sd.offers

/-- `offer_id = offer_data.get('offer_id') or offer_data.get('id')` followed
by `if not offer_id: continue` (lines 649-652): the usable id of one offer
entry, `none` for skipped entries (non-dicts or falsy ids). -/
def entryEffId : RemoteOfferEntry → Option Int
  | .dict oid idv _ _ =>
    let x := pyOr oid idv
    if truthyInt? x then x else none
  | .nonDict => none

/-- Weight of one offer entry: `share` (clamped to at least 1) wins over
`weight` when present, default 1 (lines 655-658). -/
def entryWeight : RemoteOfferEntry → Int
  | .dict _ _ w s =>
    match s with
    | some sv => max 1 sv
    | none => w.getD 1
  | .nonDict => 1

/-- Ids one stream contributes to `keitaro_offer_ids` (streams without a
truthy id are skipped before their offers are read). -/
def streamEntryIds (sd : RemoteStream) : List Int :=
  if truthyInt? sd.id then (effOffers sd).filterMap entryEffId else []

/-- `keitaro_offer_ids` accumulated over the whole listing.  The source
builds this set inside the per-stream loop (line 660, before the
user-removed check), but the set is write-only during the loop, so it is a
pure function of the listing. -/
def keitaroIds (streams : List RemoteStream) : List Int :=
  streams.flatMap streamEntryIds

/-- Upsert of one remote offer entry (lines 642-697): skip non-dicts and
falsy ids; never touch a key the user has marked `removed`; otherwise
`get_or_create` by (campaign, offer_id), updating flow/weight/status on an
existing row (its cached name is not refreshed) and creating an active row
otherwise. -/
def processEntry (api : Api) (cid : Nat) (flowId : Nat) (now : Nat) (db : DB)
    (e : RemoteOfferEntry) : DB :=
  match entryEffId e with
  | none => db
  | some oid =>
    let w := entryWeight e
    let nm := api.getOfferName oid
    if hasRemovedOffer db cid oid then db
    else
      match findOfferByKey db cid oid with
      | some _ =>
        db.updOffers (fun r => r.campaign == cid && r.offer_id == oid)
          (fun r => { r with
            flow := some flowId, weight := w, status := "active", updated_at := now })
      | none =>
        (db.createOffer (fun i =>
          ⟨i, cid, some flowId, oid, nm, w, false, "active", now, now⟩)).1

/-- Flow classification (lines 613-615): `offer_redirect` when the stream
carries a non-empty offer list, else `country_filter`. -/
def streamFlowType (sd : RemoteStream) : String :=
  if (effOffers sd).isEmpty then "country_filter" else "offer_redirect"

/-- One remote stream (lines 588-697): skip streams without a truthy id;
classify by presence of offers; `get_or_create` the local Flow by
(campaign, keitaro_id), refreshing name and type on an existing row; then
upsert the offer entries against that flow. -/
def processStream (api : Api) (cid : Nat) (now : Nat) (db : DB)
    (sd : RemoteStream) : DB :=
  if !truthyInt? sd.id then db
  else
    match db.flows.find? (fun f => f.campaign == cid && f.keitaro_id == sd.id) with
    | some fl =>
      (effOffers sd).foldl (processEntry api cid fl.id now)
        (db.updFlows (fun f => f.campaign == cid && f.keitaro_id == sd.id)
          (fun f => { f with
            name := sd.name, flow_type := streamFlowType sd, updated_at := now }))
    | none =>
      (effOffers sd).foldl (processEntry api cid db.next_id now)
        (db.createFlow (fun i =>
          ⟨i, cid, sd.id, sd.name, streamFlowType sd, "", "", true, false, now, now⟩)).1

/-- `CampaignService.fetch_streams_from_keitaro` (lines 573-716): require a
remote campaign id; list the campaign's remote streams (errors propagate);
return unchanged when the listing is empty; else process every stream and
finally mark as `removed` each active flow-bound offer of the campaign whose
id appeared in no remote flow's offer list (unbound offers are left alone). -/
def fetch_streams_from_keitaro (api : Api) (db : DB) (campaign : CampaignRow)
    (now : Nat) : Except String DB :=
  if !truthyInt? campaign.keitaro_id then Except.error "campaign has no keitaro_id"
  else
    match api.getCampaignStreams campaign.keitaro_id with
    | .error _ => Except.error "api error"
    | .ok streams =>
      if streams.isEmpty then Except.ok db
      else
        let db1 := streams.foldl (processStream api campaign.id now) db
        let kids := keitaroIds streams
        Except.ok (db1.updOffers
          (fun r => r.campaign == campaign.id && r.status == "active" &&
                    r.flow.isSome && !(kids.contains r.offer_id))
          (fun r => { r with status := "removed", updated_at := now }))

/-! ### `_save_offers_to_db` (services.py lines 95-119) -/

/-- For each requested offer id: fetch the display name best-effort and
`get_or_create` the CampaignOffer with defaults (bound to the flow, weight 1,
active); an existing row is left untouched. -/
def saveOffersToDb (api : Api) (db : DB) (cid : Nat) (flowId : Nat)
    (ids : List Int) (now : Nat) : DB :=
  ids.foldl (fun acc oid =>
    match findOfferByKey acc cid oid with
    | some _ => acc
    | none =>
      (acc.createOffer (fun i =>
        ⟨i, cid, some flowId, oid, api.getOfferName oid, 1, false, "active", now, now⟩)).1) db

/-! ### `create_campaign_with_flows` (services.py lines 251-439) -/

/-- `any(o.get('id') == offer_id for o in stream_offers)` -- short-circuits
on the first match, raises (`none`) on a non-dict entry reached before one. -/
def anyIdEq (offer_id : Int) : List RemoteOfferEntry → Option Bool
  | [] => some false
  | .dict _ idv _ _ :: rest =>
    if idv == some offer_id then some true else anyIdEq offer_id rest
  | .nonDict :: _ => none

/-- The Flow 1 recovery scan (lines 324-341 and 346-364, identical bodies):
first stream whose name contains `"{geo} to Google"` or `"Flow 1"` and whose
remote id is not yet referenced by a local Flow is imported; a name match
already referenced locally does not stop the scan. -/
def flow1Scan (db : DB) (cid : Nat) (geo : String) (now : Nat) :
    List RemoteStream → DB
  | [] => db
  | s :: rest =>
    if strContains s.name (geo ++ " to Google") || strContains s.name "Flow 1" then
      if (db.flows.find? (fun f => f.keitaro_id == s.id)).isSome then
        flow1Scan db cid geo now rest
      else
        (db.createFlow (fun i =>
          ⟨i, cid, s.id, s.name, "country_filter", geo, "https://google.com",
           true, false, now, now⟩)).1
    else flow1Scan db cid geo now rest

/-- `_check_and_save_flow_if_exists` scan body (lines 193-245): first stream
matching `"Offer {id}"`/`"Flow 2"` in the name or carrying the offer in its
payload is imported (or its already-imported Flow reused, upserting the
offer's binding); a non-dict payload or offer entry raises, which the
enclosing handler turns into `none` (nothing written before a match). -/
def checkSaveScan (db : DB) (cid : Nat) (offer_id : Int) (offer_name : String)
    (now : Nat) : List RemoteStream → Option (DB × FlowRow)
  | [] => none
  | s :: rest =>
    match payloadAsDict? s.action_payload with
    | none => none
    | some pd =>
      match anyIdEq offer_id pd.offers with
      | none => none
      | some has_our =>
        if strContains s.name ("Offer " ++ toString offer_id) ||
           strContains s.name "Flow 2" || has_our then
          match db.flows.find? (fun f => f.keitaro_id == s.id) with
          | none =>
            let p := db.createFlow (fun i =>
              ⟨i, cid, s.id, s.name, "offer_redirect", "", "", true, false, now, now⟩)
            some ((p.1.createOffer (fun i =>
              ⟨i, cid, some p.2.id, offer_id, offer_name, 1, false, "active",
               now, now⟩)).1, p.2)
          | some ex =>
            match findOfferByKey db cid offer_id with
            | some _ =>
              some (db.updOffers (fun r => r.campaign == cid && r.offer_id == offer_id)
                (fun r => { r with
                  flow := some ex.id, status := "active", updated_at := now }), ex)
            | none =>
              some ((db.createOffer (fun i =>
                ⟨i, cid, some ex.id, offer_id, offer_name, 1, false, "active",
                 now, now⟩)).1, ex)
        else checkSaveScan db cid offer_id offer_name now rest

/-- `CampaignService._check_and_save_flow_if_exists` (lines 181-249). -/
def check_and_save_flow_if_exists (api : Api) (db : DB) (cid : Nat)
    (campaign_kid : Option Int) (offer_id : Int) (offer_name : String) (now : Nat) :
    DB × Option FlowRow :=
  match api.getCampaignStreams campaign_kid with
  | .error _ => (db, none)
  | .ok streams =>
    match checkSaveScan db cid offer_id offer_name now streams with
    | some (db', fl) => (db', some fl)
    | none => (db, none)

/-- Flow 1 creation (lines 293-366): attempt the country-filter stream; on a
dict response with a truthy id persist it; on the `None` sentinel or an
exception, re-list and run the recovery scan (a listing failure is
swallowed). -/
def flow1Req (api : Api) (camp : CampaignRow) (geo : String) : CreateFlowReq :=
  { campaign_id := camp.keitaro_id, name := "Flow 1 - " ++ geo ++ " to Google",
    action_type := some (actionTypeForRedirect (getActionsCached api)),
    payload := .urlDict "https://google.com",
    schema := schemaForRedirect (getSchemasCached api),
    filters := some [{ name := "country", op := some "is", value := some geo }] }

def flow1Step (api : Api) (db : DB) (camp : CampaignRow) (geo : String)
    (now : Nat) : DB :=
  match api.createFlow (flow1Req api camp geo) with
  | .ok (some d) =>
    if truthyInt? d.id then
      (db.createFlow (fun i =>
        ⟨i, camp.id, d.id, d.name.getD ("Flow 1 - " ++ geo ++ " to Google"),
         "country_filter", geo, "https://google.com", true, false, now, now⟩)).1
    else db
  | .ok none =>
    match api.getCampaignStreams camp.keitaro_id with
    | .ok streams => flow1Scan db camp.id geo now streams
    | .error _ => db
  | .error _ =>
    match api.getCampaignStreams camp.keitaro_id with
    | .ok streams => flow1Scan db camp.id geo now streams
    | .error _ => db

/-- Flow 2 creation (lines 368-437): attempt the offer stream; on a dict
response with a truthy id persist it plus its CampaignOffer; on the `None`
sentinel run the recovery check; on an exception run the recovery check and,
when nothing is found, keep the offer unbound (`flow=None`). -/
def flow2Req (api : Api) (camp : CampaignRow) (offer_id : Int) : CreateFlowReq :=
  { campaign_id := camp.keitaro_id, name := "Flow 2 - Offer " ++ toString offer_id,
    action_type := some (actionTypeForOffers (getActionsCached api)),
    payload := .offersDict [{ idKey := "id", oid := offer_id, wKey := "weight", w := 1 }],
    schema := schemaForOffers (getSchemasCached api),
    filters := none }

def flow2Step (api : Api) (db : DB) (camp : CampaignRow) (offer_id : Int)
    (now : Nat) : DB :=
  match api.createFlow (flow2Req api camp offer_id) with
  | .ok (some d) =>
    if truthyInt? d.id then
      let p := db.createFlow (fun i =>
        ⟨i, camp.id, d.id, d.name.getD ("Flow 2 - Offer " ++ toString offer_id),
         "offer_redirect", "", "", true, false, now, now⟩)
      (p.1.createOffer (fun i =>
        ⟨i, camp.id, some p.2.id, offer_id, api.getOfferName offer_id, 1, false,
         "active", now, now⟩)).1
    else db
  | .ok none =>
    (check_and_save_flow_if_exists api db camp.id camp.keitaro_id offer_id
      (api.getOfferName offer_id) now).1
  | .error _ =>
    match check_and_save_flow_if_exists api db camp.id camp.keitaro_id offer_id
        (api.getOfferName offer_id) now with
    | (db', some _) => db'
    | (db', none) =>
      (db'.createOffer (fun i =>
        ⟨i, camp.id, none, offer_id, api.getOfferName offer_id, 1, false,
         "active", now, now⟩)).1

/-- `CampaignService.create_campaign_with_flows` (lines 251-439): create the
remote campaign (exceptions propagate, an absent body raises on `.get`, a
falsy id raises `ValueError`); persist the Campaign row anchored to the
returned id; then attempt the two flows (their failures never undo the
campaign row).  `domain`/`group`/`source` arrive with settings defaults
already applied. -/
def create_campaign_with_flows (api : Api) (db : DB) (name geo : String)
    (offer_id : Int) (domain group source : Option String) (now : Nat) :
    DB × Except String CampaignRow :=
  match api.createCampaign with
  | .error _ => (db, Except.error "api error")
  | .ok none => (db, Except.error "no response object")
  | .ok (some resp) =>
    if !truthyInt? resp.id then (db, Except.error "no campaign id")
    else
      let p := db.createCampaign (fun i =>
        ⟨i, resp.id, name, geo, offer_id, domain.getD "", group.getD "",
         source.getD "", now, now⟩)
      (flow2Step api (flow1Step api p.1 p.2 geo now) p.2 offer_id now,
       Except.ok p.2)

/-! ### `cancel_flow_changes` (services.py lines 748-764) -/

/-- Delete every active offer of the flow updated after the flow's
`updated_at` (unpublished adds), flip back to `active` every offer of the
flow marked `removed` after that timestamp (queryset `.update`, which does
not touch timestamps), clear `has_changes` and recalculate weights. -/
def cancel_flow_changes (db : DB) (flow : FlowRow) (now : Nat) : DB :=
  recalculate_weights
    ((({ db with offers := db.offers.filter (fun r =>
          !(r.flow == some flow.id && r.status == "active" &&
            decide (flow.updated_at < r.updated_at))) } : DB).updOffers
        (fun r => r.flow == some flow.id && r.status == "removed" &&
                  decide (flow.updated_at < r.updated_at))
        (fun r => { r with status := "active" })).updFlows
      (fun f => f.id == flow.id)
      (fun f => { f with has_changes := false, updated_at := now }))
    flow.id now

/-! ### `create_flow_for_campaign` (services.py lines 916-1258) -/

/-- `[int(x.strip()) for x in offer_ids.split(',') if x.strip()]`, `none`
when some piece fails to parse (`ValueError`). -/
def parseOfferIds (s : String) : Option (List Int) :=
  (((splitCommaAux s.data []).map stripChars).filter (fun p => !p.isEmpty)).foldr
    (fun p acc =>
      match parseIntChars p, acc with
      | some v, some l => some (v :: l)
      | _, _ => none)
    (some [])

/-- `[o.get('id') for o in stream_offers if o.get('id')]` over a payload's
offer list; raises (`none`) on a non-dict entry (`_find_existing_flow`,
line 143). -/
def fefOfferIds : List RemoteOfferEntry → Option (List Int)
  | [] => some []
  | .nonDict :: _ => none
  | .dict _ idv _ _ :: rest =>
    (fefOfferIds rest).map (fun l =>
      match idv with
      | some v => if v != 0 then v :: l else l
      | none => l)

/-- The country-filter match of `_find_existing_flow` (lines 146-150),
defined on streams whose payload supports `.get`. -/
def fefCountryMatch (nm : String) (country redirect_url : Option String)
    (s : RemoteStream) : Bool :=
  match payloadAsDict? s.action_payload with
  | some pd =>
    lowerContains s.name nm ||
    (truthyOptStr country && strContains (upperStr s.name) (upperStr (country.getD ""))) ||
    (truthyOptStr redirect_url && strContains pd.url (redirect_url.getD ""))
  | none => false

/-- Per-stream match of `_find_existing_flow` (lines 140-152); `none` where
the Python code would raise `AttributeError` on a non-dict payload or offer
entry (which aborts the whole scan). -/
def fefMatches? (nm flow_type : String) (offer_id_list : List Int)
    (country redirect_url : Option String) (s : RemoteStream) : Option Bool :=
  if flow_type == "offer_redirect" && !offer_id_list.isEmpty then
    match payloadAsDict? s.action_payload with
    | none => none
    | some pd =>
      match fefOfferIds pd.offers with
      | none => none
      | some sids =>
        some (lowerContains s.name nm ||
          offer_id_list.all (fun oid => sids.contains oid))
  else if flow_type == "country_filter" then
    match payloadAsDict? s.action_payload with
    | none => none
    | some _ => some (fefCountryMatch nm country redirect_url s)
  else
    some (lowerContains s.name nm)

/-- Scan body of `_find_existing_flow` (lines 131-179): first matching
stream is imported as a local Flow (with its offers for `offer_redirect`),
or its already-imported Flow is returned; any raised `AttributeError`
aborts the scan with nothing written. -/
def fefScan (api : Api) (db : DB) (cid : Nat) (nm flow_type : String)
    (offer_id_list : List Int) (country redirect_url : Option String) (now : Nat) :
    List RemoteStream → Option (DB × FlowRow)
  | [] => none
  | s :: rest =>
    match fefMatches? nm flow_type offer_id_list country redirect_url s with
    | none => none
    | some false =>
      fefScan api db cid nm flow_type offer_id_list country redirect_url now rest
    | some true =>
      match db.flows.find? (fun f => f.keitaro_id == s.id) with
      | some ex => some (db, ex)
      | none =>
        let p := db.createFlow (fun i =>
          ⟨i, cid, s.id, s.name, flow_type, country.getD "", redirect_url.getD "",
           true, false, now, now⟩)
        if flow_type == "offer_redirect" && !offer_id_list.isEmpty then
          some (saveOffersToDb api p.1 cid p.2.id offer_id_list now, p.2)
        else
          some (p.1, p.2)

/-- `CampaignService._find_existing_flow` (lines 121-179). -/
def find_existing_flow (api : Api) (db : DB) (campaign : CampaignRow)
    (nm flow_type : String) (offer_id_list : List Int)
    (country redirect_url : Option String) (now : Nat) : Option (DB × FlowRow) :=
  match api.getCampaignStreams campaign.keitaro_id with
  | .error _ => none
  | .ok streams =>
    fefScan api db campaign.id nm flow_type offer_id_list country redirect_url now streams

/-- `flow_data and flow_data.get('id')` truthiness. -/
def truthyResp : Option FlowResp → Bool
  | some r => truthyInt? r.id
  | none => false

/-- The inner listing scan of the country-filter 500 handler (lines
1030-1047): a name-matching stream updates `flow_data` when it also carries
a matching country filter (`country.upper() in str(f.get('payload', []))`);
after every stream, `if flow_data: break` stops as soon as `flow_data` is a
dict, truthy id or not. -/
def scanCountry (nm co : String) (fd : Option FlowResp) :
    List RemoteStream → Option FlowResp
  | [] => fd
  | s :: rest =>
    let fd' :=
      if lowerContains s.name nm then
        match s.filters.find? (fun f =>
            f.name == "country" && strContains f.payloadStr (upperStr co)) with
        | some _ => some { id := s.id, name := some s.name }
        | none => fd
      else fd
    if fd'.isSome then fd' else scanCountry nm co fd' rest

/-- One country-filter creation attempt (lines 1001-1048): on success the
response replaces `flow_data` (a truthy id breaks); on an exception whose
message mentions 500 the listing scan may update `flow_data`, and the loop
continues regardless (`continue`, line 1048). -/
def cfAttempt (api : Api) (campaign : CampaignRow) (nm action_type schema co : String)
    (fv : List FilterSpec) (apv : ReqPayload) (fd : Option FlowResp) :
    Option FlowResp × Bool :=
  match api.createFlow
      { campaign_id := campaign.keitaro_id, name := nm,
        action_type := some action_type, payload := apv, schema := schema,
        filters := some fv } with
  | .ok r => (r, truthyResp r)
  | .error e =>
    if e.is500 then
      match api.getCampaignStreams campaign.keitaro_id with
      | .ok ss => (scanCountry nm co fd ss, false)
      | .error _ => (fd, false)
    else (fd, false)

/-- The inner (payload-variant) loop of the country-filter branch. -/
def cfInner (api : Api) (campaign : CampaignRow) (nm action_type schema co : String)
    (fv : List FilterSpec) : List ReqPayload → Option FlowResp → Option FlowResp × Bool
  | [], fd => (fd, false)
  | apv :: rest, fd =>
    match cfAttempt api campaign nm action_type schema co fv apv fd with
    | (fd', true) => (fd', true)
    | (fd', false) => cfInner api campaign nm action_type schema co fv rest fd'

/-- The outer (filter-variant) loop (lines 998-1052); after each inner loop
a truthy `flow_data` breaks out. -/
def cfOuter (api : Api) (campaign : CampaignRow) (nm action_type schema co : String)
    (apvs : List ReqPayload) : List (List FilterSpec) → Option FlowResp → Option FlowResp
  | [], fd => fd
  | fv :: rest, fd =>
    match cfInner api campaign nm action_type schema co fv apvs fd with
    | (fd', true) => fd'
    | (fd', false) =>
      if truthyResp fd' then fd'
      else cfOuter api campaign nm action_type schema co apvs rest fd'

/-- The three country-filter format variants (lines 970-988). -/
def cfFilterVariants (co : String) : List (List FilterSpec) :=
  [ [{ name := "country", mode := some "accept", payload := some [upperStr co] }],
    [{ name := "country", op := some "is", value := some (upperStr co) }],
    [{ name := "country", payload := some [upperStr co] }] ]

/-- The two `action_payload` variants (lines 990-993). -/
def cfPayloadVariants (ru : String) : List ReqPayload :=
  [ .rawStr ru, .urlDict ru ]

/-- Country-filter give-up path (lines 1070-1089): consult
`_find_existing_flow`; report failure if nothing is found. -/
def cfGiveUp (api : Api) (db : DB) (campaign : CampaignRow) (nm : String)
    (country redirect_url : Option String) (now : Nat) : DB × Except String FlowRow :=
  match find_existing_flow api db campaign nm "country_filter" [] country redirect_url now with
  | some (db', fl) => (db', Except.ok fl)
  | none => (db, Except.error "could not create flow")

/-- `o.get('offer_id') or o.get('id')` over the root offer list of a stream,
non-dict entries filtered by `isinstance` (lines 1178-1179). -/
def rootOfferIds (s : RemoteStream) : List (Option Int) :=
  s.offers.filterMap (fun e =>
    match e with
    | .dict oid idv _ _ => some (pyOr oid idv)
    | .nonDict => none)

/-- Match of the offer-redirect 500 handler (lines 1181-1182): name
substring or intended offer-id set contained in the stream's root offer-id
set. -/
def offerStreamMatches (nm : String) (ids : List Int) (s : RemoteStream) : Bool :=
  lowerContains s.name nm || ids.all (fun oid => (rootOfferIds s).contains (some oid))

/-- The attempt loop of the offer-redirect branch (lines 1151-1190): a
successful response replaces `flow_data` (truthy id breaks); a non-500 error
continues; a 500 error re-lists and a truthy match breaks (line 1186). -/
def orAttempts (api : Api) (campaign : CampaignRow) (nm : String) (ids : List Int)
    (fmt : List FmtEntry) :
    List (String × Option String) → Option FlowResp → Option FlowResp × Bool
  | [], fd => (fd, false)
  | att :: rest, fd =>
    match api.createFlow
        { campaign_id := campaign.keitaro_id, name := nm, action_type := att.2,
          payload := .offersDict fmt, schema := att.1, filters := none } with
    | .ok r =>
      if truthyResp r then (r, true)
      else orAttempts api campaign nm ids fmt rest r
    | .error e =>
      if !e.is500 then orAttempts api campaign nm ids fmt rest fd
      else
        match api.getCampaignStreams campaign.keitaro_id with
        | .ok ss =>
          match ss.find? (fun s => offerStreamMatches nm ids s) with
          | some s =>
            if truthyResp (some { id := s.id, name := some s.name }) then
              (some { id := s.id, name := some s.name }, true)
            else orAttempts api campaign nm ids fmt rest (some { id := s.id, name := some s.name })
          | none => orAttempts api campaign nm ids fmt rest fd
        | .error _ => orAttempts api campaign nm ids fmt rest fd

/-- The format loop of the offer-redirect branch (lines 1148-1192). -/
def orFormats (api : Api) (campaign : CampaignRow) (nm : String) (ids : List Int)
    (atts : List (String × Option String)) :
    List (List FmtEntry) → Option FlowResp → Option FlowResp
  | [], fd => fd
  | fmt :: rest, fd =>
    if truthyResp fd then fd
    else
      match orAttempts api campaign nm ids fmt atts fd with
      | (fd', true) => fd'
      | (fd', false) =>
        if truthyResp fd' then fd'
        else orFormats api campaign nm ids atts rest fd'

/-- The four offer-format variants (lines 1130-1135). -/
def offerFormats (ids : List Int) : List (List FmtEntry) :=
  [ ids.map (fun oid => { idKey := "id", oid := oid, wKey := "weight", w := 1 }),
    ids.map (fun oid => { idKey := "offer_id", oid := oid, wKey := "weight", w := 1 }),
    ids.map (fun oid => { idKey := "id", oid := oid, wKey := "share", w := 1 }),
    ids.map (fun oid => { idKey := "offer_id", oid := oid, wKey := "share", w := 1 }) ]

/-- The five (schema, action_type) attempts (lines 1139-1145). -/
def orAttemptList : List (String × Option String) :=
  [("landings", none), ("landings", some "meta"), ("landings", some "js"),
   ("landings", some "http"), ("action", some "http")]

/-- `CampaignService.create_flow_for_campaign` (lines 916-1258).  In the
offer-redirect branch, when the loops end without a truthy `flow_data` the
function raises at line 1195; the verification block at lines 1220-1255 is
unreachable (dead code) and is therefore not part of the embedding. -/
def create_flow_for_campaign (api : Api) (db : DB) (campaign : CampaignRow)
    (nm flow_type : String) (redirect_url country offer_ids : Option String)
    (now : Nat) : DB × Except String FlowRow :=
  if !truthyInt? campaign.keitaro_id then (db, Except.error "campaign has no keitaro_id")
  else if flow_type == "country_filter" then
    if !truthyOptStr redirect_url then (db, Except.error "redirect_url required")
    else if !truthyOptStr country then (db, Except.error "country required")
    else
      match cfOuter api campaign nm
          (actionTypeForRedirect (getActionsCached api))
          (schemaForRedirect (getSchemasCached api))
          (country.getD "") (cfPayloadVariants (redirect_url.getD ""))
          (cfFilterVariants (country.getD "")) none with
      | some d =>
        if truthyInt? d.id then
          let p := db.createFlow (fun i =>
            ⟨i, campaign.id, d.id, d.name.getD nm, "country_filter",
             country.getD "", redirect_url.getD "", true, false, now, now⟩)
          (p.1, Except.ok p.2)
        else cfGiveUp api db campaign nm country redirect_url now
      | none => cfGiveUp api db campaign nm country redirect_url now
  else if flow_type == "offer_redirect" then
    if !truthyOptStr offer_ids then (db, Except.error "offer_ids required")
    else
      match parseOfferIds (offer_ids.getD "") with
      | none => (db, Except.error "bad offer id format")
      | some ids =>
        if ids.isEmpty then (db, Except.error "no offer ids")
        else
          match orFormats api campaign nm ids orAttemptList (offerFormats ids) none with
          | some d =>
            if truthyInt? d.id then
              let p := db.createFlow (fun i =>
                ⟨i, campaign.id, d.id, d.name.getD nm, "offer_redirect", "", "",
                 true, false, now, now⟩)
              (saveOffersToDb api p.1 campaign.id p.2.id ids now, Except.ok p.2)
            else (db, Except.error "create flow failed")
          | none => (db, Except.error "create flow failed")
  else (db, Except.error "unknown flow type")

/-! ### Concrete witness data -/

/-- A database with one pinned and one unpinned active offer in flow 5. -/
def dbC3 : DB :=
  { campaigns := []
    flows := []
    offers :=
      [ ⟨1, 1, some 5, 100, "", 7, true, "active", 0, 0⟩,
        ⟨2, 1, some 5, 101, "", 9, false, "active", 0, 0⟩ ]
    next_id := 10 }

/-- A remote API oracle whose every call yields a trivially empty result. -/
def apiNull : Api :=
  { createCampaign := Except.ok none
    createFlow := fun _ => Except.ok none
    getCampaignStreams := fun _ => Except.ok []
    getOfferName := fun _ => ""
    getStreamSchemas := Except.ok []
    getStreamsActions := Except.ok [] }

/-- The empty database. -/
def dbEmpty : DB := ⟨[], [], [], 0⟩

/-- A campaign with one flow (id 3) holding two bound active offers. -/
def dbC10 : DB :=
  { campaigns := [⟨1, some 50, "c", "AU", 55, "", "", "", 0, 0⟩]
    flows := [⟨3, 1, some 9, "F", "offer_redirect", "", "", true, false, 0, 0⟩]
    offers :=
      [ ⟨4, 1, some 3, 55, "n", 5, false, "active", 0, 0⟩,
        ⟨6, 1, some 3, 56, "m", 4, false, "active", 0, 0⟩ ]
    next_id := 20 }

/-- The state after removing offer 55 from campaign 1 of `dbC10`. -/
def dbC10r : DB :=
  match remove_offer_from_campaign dbC10 1 55 7 with
  | .ok d => d
  | .error _ => dbC10

/-- A campaign row mirroring remote campaign 5. -/
def campC46 : CampaignRow := ⟨1, some 5, "c", "AU", 77, "", "", "", 0, 0⟩

/-- A remote stream whose offer list names offer 77. -/
def streamC4 : RemoteStream :=
  { id := some 9, name := "S", action_payload := .dict {},
    offers := [.dict none (some 77) (some 3) none], filters := [] }

/-- Oracle whose stream listing is `[streamC4]`. -/
def apiC4 : Api := { apiNull with getCampaignStreams := fun _ => Except.ok [streamC4] }

/-- Campaign 1 with offer 77 marked `removed` by the user. -/
def dbC4 : DB :=
  { campaigns := [campC46], flows := []
    offers := [⟨2, 1, some 3, 77, "x", 2, false, "removed", 0, 0⟩]
    next_id := 10 }

/-- Campaign 1 with a flow-bound active offer 77 (bound to local flow 2). -/
def dbC6 : DB :=
  { campaigns := [campC46]
    flows := [⟨2, 1, some 9, "F", "offer_redirect", "", "", true, false, 0, 0⟩]
    offers := [⟨3, 1, some 2, 77, "x", 2, false, "active", 0, 0⟩]
    next_id := 10 }

/-- A remote stream with an empty offer list. -/
def streamC6 : RemoteStream :=
  { id := some 9, name := "S", action_payload := .dict {}, offers := [], filters := [] }

/-- Oracle whose stream listing is `[streamC6]`. -/
def apiC6 : Api := { apiNull with getCampaignStreams := fun _ => Except.ok [streamC6] }

/-- Like `dbC6` plus an unbound active offer 88. -/
def dbC6w : DB :=
  { campaigns := [campC46]
    flows := [⟨2, 1, some 9, "F", "offer_redirect", "", "", true, false, 0, 0⟩]
    offers :=
      [ ⟨3, 1, some 2, 77, "x", 2, false, "active", 0, 0⟩,
        ⟨4, 1, none, 88, "y", 2, false, "active", 0, 0⟩ ]
    next_id := 10 }

/-- A remote stream with id 42 whose name contains "my flow". -/
def streamC1 : RemoteStream :=
  { id := some 42, name := "my flow 2", action_payload := .dict {},
    offers := [], filters := [] }

/-- Oracle whose flow creations return the ambiguous `None` sentinel while
the listing shows `streamC1`. -/
def apiC1n : Api := { apiNull with getCampaignStreams := fun _ => Except.ok [streamC1] }

/-- Oracle whose flow creations raise a 500-class error while the listing
shows `streamC1`. -/
def apiC1r : Api :=
  { apiNull with
    createFlow := fun _ => Except.error ⟨true⟩
    getCampaignStreams := fun _ => Except.ok [streamC1] }

/-- Oracle whose campaign creation returns id 9001 (flows fail ambiguously). -/
def apiC2 : Api := { apiNull with createCampaign := Except.ok (some ⟨some 9001⟩) }

/-- Oracle whose campaign creation returns an object without an id. -/
def apiC2z : Api := { apiNull with createCampaign := Except.ok (some ⟨none⟩) }

/-- A flow last updated at time 10, with unpublished changes. -/
def flowC7 : FlowRow := ⟨5, 1, some 9, "F", "offer_redirect", "", "", true, true, 0, 10⟩

/-- Offers of `flowC7`: one added after T0=10 (created/updated 12), one
removed after T0 (updated 15), one untouched since before T0. -/
def dbC7 : DB :=
  { campaigns := [campC46]
    flows := [flowC7]
    offers :=
      [ ⟨7, 1, some 5, 60, "", 3, false, "active", 12, 12⟩,
        ⟨8, 1, some 5, 61, "", 4, false, "removed", 0, 15⟩,
        ⟨9, 1, some 5, 62, "", 6, false, "active", 0, 5⟩ ]
    next_id := 20 }

/-! ### Claims C8 and C9 (gateway) -/

/-- Claim C8, counterexample: `get_offers` does not unwrap a `data`-wrapped
object; the claimed normalization fails for the offers endpoint. -/
theorem C8_counterexample :
    getOffersNorm (some (Json.obj [("data", Json.arr [Json.num 1])])) = Json.arr [] ∧
    Json.arr ([] : List Json) ≠ Json.arr [Json.num 1] :=
  ⟨rfl, by simp⟩

/-- Claim C8 (amended): every list-returning gateway endpoint returns a bare
array as-is and yields an empty list on any other unrecognized shape, without
raising; but only the campaigns and streams endpoints unwrap the `data` key
(and their endpoint key when `data` is absent); the schemas, actions and
filters endpoints unwrap only their endpoint-specific key (ignoring `data`);
and the offers endpoint accepts only a bare array, turning every object shape
into an empty list. -/
theorem C8_normalization :
    (∀ xs, getCampaignsNorm (some (Json.arr xs)) = Json.arr xs ∧
           getCampaignStreamsNorm (some (Json.arr xs)) = Json.arr xs ∧
           getStreamSchemasNorm (some (Json.arr xs)) = Json.arr xs ∧
           getStreamsActionsNorm (some (Json.arr xs)) = Json.arr xs ∧
           getStreamFiltersNorm (some (Json.arr xs)) = Json.arr xs ∧
           getOffersNorm (some (Json.arr xs)) = Json.arr xs) ∧
    (∀ fs l, Json.lookup (Json.obj fs) "data" = some (Json.arr l) →
        getCampaignsNorm (some (Json.obj fs)) = Json.arr l ∧
        getCampaignStreamsNorm (some (Json.obj fs)) = Json.arr l) ∧
    (∀ fs l, Json.lookup (Json.obj fs) "data" = none →
        Json.lookup (Json.obj fs) "campaigns" = some (Json.arr l) →
        getCampaignsNorm (some (Json.obj fs)) = Json.arr l) ∧
    (∀ fs l, Json.lookup (Json.obj fs) "data" = none →
        Json.lookup (Json.obj fs) "streams" = some (Json.arr l) →
        getCampaignStreamsNorm (some (Json.obj fs)) = Json.arr l) ∧
    (∀ fs v, Json.lookup (Json.obj fs) "schemas" = some v →
        getStreamSchemasNorm (some (Json.obj fs)) = v) ∧
    (∀ fs, Json.lookup (Json.obj fs) "schemas" = none →
        getStreamSchemasNorm (some (Json.obj fs)) = Json.arr []) ∧
    (∀ fs v, Json.lookup (Json.obj fs) "actions" = some v →
        getStreamsActionsNorm (some (Json.obj fs)) = v) ∧
    (∀ fs, Json.lookup (Json.obj fs) "actions" = none →
        getStreamsActionsNorm (some (Json.obj fs)) = Json.arr []) ∧
    (∀ fs v, Json.lookup (Json.obj fs) "filters" = some v →
        getStreamFiltersNorm (some (Json.obj fs)) = v) ∧
    (∀ fs, Json.lookup (Json.obj fs) "filters" = none →
        getStreamFiltersNorm (some (Json.obj fs)) = Json.arr []) ∧
    (∀ fs, getOffersNorm (some (Json.obj fs)) = Json.arr []) ∧
    (∀ resp, (∀ xs, resp ≠ some (Json.arr xs)) → (∀ fs, resp ≠ some (Json.obj fs)) →
        getCampaignsNorm resp = Json.arr [] ∧
        getCampaignStreamsNorm resp = Json.arr [] ∧
        getStreamSchemasNorm resp = Json.arr [] ∧
        getStreamsActionsNorm resp = Json.arr [] ∧
        getStreamFiltersNorm resp = Json.arr [] ∧
        getOffersNorm resp = Json.arr []) := by
  refine ⟨?_, ?_, ?_, ?_, ?_, ?_, ?_, ?_, ?_, ?_, ?_, ?_⟩
  · intro xs
    exact ⟨rfl, rfl, rfl, rfl, rfl, rfl⟩
  · intro fs l h
    constructor <;> simp [getCampaignsNorm, getCampaignStreamsNorm, h]
  · intro fs l h1 h2
    simp [getCampaignsNorm, h1, h2]
  · intro fs l h1 h2
    simp [getCampaignStreamsNorm, h1, h2]
  · intro fs v h
    simp [getStreamSchemasNorm, h]
  · intro fs h
    simp [getStreamSchemasNorm, h]
  · intro fs v h
    simp [getStreamsActionsNorm, h]
  · intro fs h
    simp [getStreamsActionsNorm, h]
  · intro fs v h
    simp [getStreamFiltersNorm, h]
  · intro fs h
    simp [getStreamFiltersNorm, h]
  · intro fs
    rfl
  · intro resp h1 h2
    match resp with
    | none => exact ⟨rfl, rfl, rfl, rfl, rfl, rfl⟩
    | some Json.null => exact ⟨rfl, rfl, rfl, rfl, rfl, rfl⟩
    | some (Json.bool b) => exact ⟨rfl, rfl, rfl, rfl, rfl, rfl⟩
    | some (Json.num n) => exact ⟨rfl, rfl, rfl, rfl, rfl, rfl⟩
    | some (Json.str s) => exact ⟨rfl, rfl, rfl, rfl, rfl, rfl⟩
    | some (Json.arr xs) => exact absurd rfl (h1 xs)
    | some (Json.obj fs) => exact absurd rfl (h2 fs)

/-- Claim C8 witness: concrete instances of the hypothesis-bearing clauses of
the amended normalization theorem. -/
theorem C8_witness :
    getCampaignsNorm (some (Json.obj [("data", Json.arr [Json.num 3])])) = Json.arr [Json.num 3] ∧
    getStreamSchemasNorm (some (Json.obj [("data", Json.arr [Json.num 3])])) = Json.arr [] ∧
    getCampaignsNorm (some (Json.num 7)) = Json.arr [] := by
  obtain ⟨hA, hB, hC, hD, hE, hF, hG, hH, hI, hJ, hK, hL⟩ := C8_normalization
  refine ⟨(hB [("data", Json.arr [Json.num 3])] [Json.num 3] rfl).1, ?_, ?_⟩
  · exact hF [("data", Json.arr [Json.num 3])] rfl
  · exact (hL (some (Json.num 7)) (by intro xs h; simp at h) (by intro fs h; simp at h)).1

/-- Claim C9, counterexample: with `allow_500` set, a 500 response returns
`None`, which is exactly the value returned for a successful response with an
empty body -- the sentinel is not distinct from every successful result. -/
theorem C9_counterexample :
    make_request true (HttpOutcome.resp 500 (some (Json.str "Internal Server Error"))) =
      make_request true (HttpOutcome.resp 200 none) := rfl

/-- Claim C9 (amended): with `allow_500` set and response status exactly 500
the gateway suppresses the raise and returns the `None` sentinel, which is
distinct from every hard error and from every successful result carrying a
response body, but coincides with the return value of a successful empty-body
response. -/
theorem C9_ambiguous_sentinel : ∀ (b : Option Json),
    (make_request true (HttpOutcome.resp 500 b) = Except.ok none) ∧
    (∀ e, make_request true (HttpOutcome.resp 500 b) ≠ Except.error e) ∧
    (∀ j, make_request true (HttpOutcome.resp 500 b) ≠ Except.ok (some j)) ∧
    (make_request true (HttpOutcome.resp 200 none) = Except.ok none) := by
  intro b
  refine ⟨rfl, ?_, ?_, rfl⟩
  · intro e h
    rw [show make_request true (HttpOutcome.resp 500 b) = Except.ok none from rfl] at h
    exact Except.noConfusion h
  · intro j h
    rw [show make_request true (HttpOutcome.resp 500 b) = Except.ok none from rfl] at h
    simp at h

/-! ### Claim C3 (weight recalculation) -/

/-- Claim C3: `recalculate_weights` leaves every pinned active offer of the
flow unchanged; if the flow has no unpinned active offers it changes nothing;
otherwise it sets the weight of every unpinned active offer of the flow to 1. -/
theorem C3_recalculate_weights (db : DB) (flowId now : Nat) :
    (∀ r ∈ db.offers, r.flow = some flowId → r.status = "active" →
       r.weight_pinned = true → r ∈ (recalculate_weights db flowId now).offers) ∧
    (db.offers.filter (fun r =>
        r.flow == some flowId && r.status == "active" && !r.weight_pinned) = [] →
      recalculate_weights db flowId now = db) ∧
    (∀ r ∈ db.offers, r.flow = some flowId → r.status = "active" →
       r.weight_pinned = false →
       { r with weight := 1, updated_at := now } ∈
         (recalculate_weights db flowId now).offers) := by
  refine ⟨?_, ?_, ?_⟩
  · intro r hr h1 h2 h3
    unfold recalculate_weights
    by_cases hemp : (db.offers.filter (fun r =>
        r.flow == some flowId && r.status == "active" && !r.weight_pinned)).isEmpty
    · simp only [hemp, if_true]
      exact hr
    · simp only [hemp, if_false, DB.updOffers]
      have : (fun x : OfferRow =>
          if x.flow == some flowId && x.status == "active" && !x.weight_pinned
          then { x with weight := 1, updated_at := now } else x) r = r := by
        simp [h3]
      rw [← this]
      exact List.mem_map_of_mem _ hr
  · intro h
    unfold recalculate_weights
    simp [h]
  · intro r hr h1 h2 h3
    have hpred : (r.flow == some flowId && r.status == "active" && !r.weight_pinned) = true := by
      simp [h1, h2, h3]
    have hmem : r ∈ db.offers.filter (fun r =>
        r.flow == some flowId && r.status == "active" && !r.weight_pinned) :=
      List.mem_filter.mpr ⟨hr, hpred⟩
    have hne : ¬ (db.offers.filter (fun r =>
        r.flow == some flowId && r.status == "active" && !r.weight_pinned)).isEmpty := by
      intro hc
      rw [List.isEmpty_iff] at hc
      rw [hc] at hmem
      exact List.not_mem_nil _ hmem
    unfold recalculate_weights
    simp only [hne, if_false, DB.updOffers]
    have : (fun x : OfferRow =>
        if x.flow == some flowId && x.status == "active" && !x.weight_pinned
        then { x with weight := 1, updated_at := now } else x) r
        = { r with weight := 1, updated_at := now } := by
      simp [hpred]
    rw [← this]
    exact List.mem_map_of_mem _ hr

/-- Claim C3 witness: in a flow with one pinned (weight 7) and one unpinned
(weight 9) active offer, recalculation keeps the pinned row and resets the
unpinned row's weight to 1. -/
theorem C3_witness :
    (⟨1, 1, some 5, 100, "", 7, true, "active", 0, 0⟩ : OfferRow) ∈
      (recalculate_weights dbC3 5 3).offers ∧
    (⟨2, 1, some 5, 101, "", 1, false, "active", 0, 3⟩ : OfferRow) ∈
      (recalculate_weights dbC3 5 3).offers := by
  have h := C3_recalculate_weights dbC3 5 3
  exact ⟨h.1 ⟨1, 1, some 5, 100, "", 7, true, "active", 0, 0⟩ (by decide) rfl rfl rfl,
    h.2.2 ⟨2, 1, some 5, 101, "", 9, false, "active", 0, 0⟩ (by decide) rfl rfl rfl⟩

/-! ### Helper lemmas (list bookkeeping and frame facts) -/

theorem find?_if_update {α} (p : α → Bool) (f : α → α) (hp : ∀ x, p (f x) = p x)
    (l : List α) :
    (l.map (fun x => if p x then f x else x)).find? p
      = (l.find? p).map (fun x => if p x then f x else x) := by
  induction l with
  | nil => rfl
  | cons a t ih =>
    by_cases ha : p a = true
    · have hfa : p (f a) = true := by rw [hp]; exact ha
      simp only [List.map_cons, if_pos ha]
      rw [List.find?_cons_of_pos _ hfa, List.find?_cons_of_pos _ ha]
      simp [ha]
    · simp only [List.map_cons, if_neg ha]
      rw [List.find?_cons_of_neg _ ha, List.find?_cons_of_neg _ ha, ih]

theorem filterlen_if_update {α} (p : α → Bool) (f : α → α) (hp : ∀ x, p (f x) = p x)
    (l : List α) :
    ((l.map (fun x => if p x then f x else x)).filter p).length = (l.filter p).length := by
  induction l with
  | nil => rfl
  | cons a t ih =>
    by_cases ha : p a = true
    · have hfa : p (f a) = true := by rw [hp]; exact ha
      simp only [List.map_cons, if_pos ha, List.filter_cons, hfa, ha, if_true,
        List.length_cons]
      omega
    · have hb : p a = false := by revert ha; cases p a <;> simp
      simp only [List.map_cons, if_neg ha, List.filter_cons, hb, Bool.false_eq_true,
        if_false]
      exact ih

theorem eq_of_mem_of_length_le_one {α} (l : List α) (h : l.length ≤ 1)
    {a b : α} (ha : a ∈ l) (hb : b ∈ l) : a = b := by
  match l, ha, hb with
  | [x], ha, hb =>
    rw [List.mem_singleton] at ha hb
    rw [ha, hb]
  | x :: y :: t, _, _ =>
    exfalso
    simp only [List.length_cons] at h
    omega

theorem recalculate_weights_flows (db : DB) (fid now : Nat) :
    (recalculate_weights db fid now).flows = db.flows := by
  unfold recalculate_weights
  by_cases h : (db.offers.filter (fun r =>
      r.flow == some fid && r.status == "active" && !r.weight_pinned)).isEmpty <;>
    simp [h, DB.updOffers]

theorem recalculate_weights_campaigns (db : DB) (fid now : Nat) :
    (recalculate_weights db fid now).campaigns = db.campaigns := by
  unfold recalculate_weights
  by_cases h : (db.offers.filter (fun r =>
      r.flow == some fid && r.status == "active" && !r.weight_pinned)).isEmpty <;>
    simp [h, DB.updOffers]

/-- Post-condition of `recalculate_weights`: afterwards every unpinned active
offer of the flow carries weight 1. -/
theorem recalc_weight_one (db : DB) (fid now : Nat) :
    ∀ r ∈ (recalculate_weights db fid now).offers, r.flow = some fid →
      r.status = "active" → r.weight_pinned = false → r.weight = 1 := by
  intro r hr h1 h2 h3
  unfold recalculate_weights at hr
  by_cases hemp : (db.offers.filter (fun r =>
      r.flow == some fid && r.status == "active" && !r.weight_pinned)).isEmpty
  · rw [if_pos hemp] at hr
    exfalso
    have hpred : (r.flow == some fid && r.status == "active" && !r.weight_pinned) = true := by
      simp [h1, h2, h3]
    have hmem : r ∈ db.offers.filter (fun r =>
        r.flow == some fid && r.status == "active" && !r.weight_pinned) :=
      List.mem_filter.mpr ⟨hr, hpred⟩
    rw [List.isEmpty_iff] at hemp
    rw [hemp] at hmem
    exact List.not_mem_nil _ hmem
  · rw [if_neg hemp] at hr
    simp only [DB.updOffers] at hr
    obtain ⟨x, hx, hxr⟩ := List.mem_map.mp hr
    by_cases hpx : (x.flow == some fid && x.status == "active" && !x.weight_pinned) = true
    · rw [if_pos hpx] at hxr
      rw [← hxr]
    · rw [if_neg hpx] at hxr
      exfalso
      apply hpx
      rw [hxr]
      simp [h1, h2, h3]

/-- `add_offer_to_campaign`, fresh-key case. -/
theorem add_offer_eq_create (api : Api) (db : DB) (cid : Nat) (oid : Int)
    (w : Int) (n : Nat) (h : findOfferByKey db cid oid = none) :
    add_offer_to_campaign api db cid oid w n =
      ({ db with
          offers := db.offers ++
            [⟨db.next_id, cid, none, oid, api.getOfferName oid, w, false, "active", n, n⟩],
          next_id := db.next_id + 1 },
       ⟨db.next_id, cid, none, oid, api.getOfferName oid, w, false, "active", n, n⟩) := by
  unfold add_offer_to_campaign DB.createOffer
  rw [h]

/-- `add_offer_to_campaign`, existing-key case. -/
theorem add_offer_eq_update (api : Api) (db : DB) (cid : Nat) (oid : Int)
    (w : Int) (n : Nat) (ex : OfferRow) (h : findOfferByKey db cid oid = some ex) :
    add_offer_to_campaign api db cid oid w n =
      (db.updOffers (fun r => r.campaign == cid && r.offer_id == oid)
        (fun r => { r with
          flow := none, offer_name := api.getOfferName oid,
          weight := w, status := "active", updated_at := n }),
       { ex with
         flow := none, offer_name := api.getOfferName oid,
         weight := w, status := "active", updated_at := n }) := by
  unfold add_offer_to_campaign
  rw [h]

theorem offerKeyCount_updOffers (db : DB) (cid : Nat) (oid : Int)
    (f : OfferRow → OfferRow)
    (hc : ∀ x, (f x).campaign = x.campaign) (ho : ∀ x, (f x).offer_id = x.offer_id) :
    offerKeyCount (db.updOffers (fun r => r.campaign == cid && r.offer_id == oid) f)
        cid oid = offerKeyCount db cid oid := by
  unfold offerKeyCount DB.updOffers
  exact filterlen_if_update _ _ (fun x => by rw [hc, ho]) _

theorem findOfferByKey_updOffers (db : DB) (cid : Nat) (oid : Int)
    (f : OfferRow → OfferRow)
    (hc : ∀ x, (f x).campaign = x.campaign) (ho : ∀ x, (f x).offer_id = x.offer_id) :
    findOfferByKey (db.updOffers (fun r => r.campaign == cid && r.offer_id == oid) f)
        cid oid
      = (findOfferByKey db cid oid).map
          (fun r => if r.campaign == cid && r.offer_id == oid then f r else r) := by
  unfold findOfferByKey DB.updOffers
  exact find?_if_update _ _ (fun x => by rw [hc, ho]) _

/-- `offerKeyCount_updOffers` specialized to the update `add_offer_to_campaign`
performs. -/
theorem offerKeyCount_upd_addoffer (db : DB) (cid : Nat) (oid : Int) (nm : String)
    (w : Int) (n : Nat) :
    offerKeyCount (db.updOffers (fun r => r.campaign == cid && r.offer_id == oid)
      (fun r => { r with
        flow := none, offer_name := nm, weight := w,
        status := "active", updated_at := n })) cid oid = offerKeyCount db cid oid :=
  offerKeyCount_updOffers db cid oid _ (fun _ => rfl) (fun _ => rfl)

/-- `findOfferByKey_updOffers` specialized to the update
`add_offer_to_campaign` performs. -/
theorem findOfferByKey_upd_addoffer (db : DB) (cid : Nat) (oid : Int) (nm : String)
    (w : Int) (n : Nat) :
    findOfferByKey (db.updOffers (fun r => r.campaign == cid && r.offer_id == oid)
      (fun r => { r with
        flow := none, offer_name := nm, weight := w,
        status := "active", updated_at := n })) cid oid
      = (findOfferByKey db cid oid).map
          (fun r => if r.campaign == cid && r.offer_id == oid
            then { r with
              flow := none, offer_name := nm, weight := w,
              status := "active", updated_at := n } else r) :=
  findOfferByKey_updOffers db cid oid _ (fun _ => rfl) (fun _ => rfl)

/-! ### Claim C5 (add is an upsert on the (campaign, offer_id) key) -/

/-- Claim C5: calling `add_offer_to_campaign` twice with the same
(campaign, offer_id) never yields two rows: afterwards exactly one row
carries the key, the second call's result row is the same row as the first
call's (same primary key), and it is active with the given weight and a null
flow binding, regardless of prior status. -/
theorem C5_add_offer_idempotent (api : Api) (db : DB) (cid : Nat) (oid : Int)
    (w1 w2 : Int) (n1 n2 : Nat) (huniq : offerKeyCount db cid oid ≤ 1) :
    offerKeyCount (add_offer_to_campaign api
        (add_offer_to_campaign api db cid oid w1 n1).1 cid oid w2 n2).1 cid oid = 1 ∧
    (add_offer_to_campaign api (add_offer_to_campaign api db cid oid w1 n1).1
        cid oid w2 n2).2.id = (add_offer_to_campaign api db cid oid w1 n1).2.id ∧
    (add_offer_to_campaign api (add_offer_to_campaign api db cid oid w1 n1).1
        cid oid w2 n2).2.status = "active" ∧
    (add_offer_to_campaign api (add_offer_to_campaign api db cid oid w1 n1).1
        cid oid w2 n2).2.weight = w2 ∧
    (add_offer_to_campaign api (add_offer_to_campaign api db cid oid w1 n1).1
        cid oid w2 n2).2.flow = none ∧
    (∀ r ∈ (add_offer_to_campaign api (add_offer_to_campaign api db cid oid w1 n1).1
        cid oid w2 n2).1.offers, r.campaign = cid → r.offer_id = oid →
      r = (add_offer_to_campaign api (add_offer_to_campaign api db cid oid w1 n1).1
        cid oid w2 n2).2) := by
  rcases hfind : findOfferByKey db cid oid with _ | ex
  · -- first call creates a fresh row, second call updates it in place
    have hall : ∀ r ∈ db.offers, ¬ (r.campaign == cid && r.offer_id == oid) = true := by
      have h' : db.offers.find? (fun r => r.campaign == cid && r.offer_id == oid) = none :=
        hfind
      exact List.find?_eq_none.mp h'
    rw [add_offer_eq_create api db cid oid w1 n1 hfind]
    have hfind2 :
        findOfferByKey
          ({ db with
              offers := db.offers ++
                [⟨db.next_id, cid, none, oid, api.getOfferName oid, w1, false,
                  "active", n1, n1⟩],
              next_id := db.next_id + 1 }) cid oid
          = some ⟨db.next_id, cid, none, oid, api.getOfferName oid, w1, false,
                  "active", n1, n1⟩ := by
      unfold findOfferByKey
      rw [List.find?_append]
      have h' : db.offers.find? (fun r => r.campaign == cid && r.offer_id == oid) = none :=
        hfind
      rw [h']
      simp [List.find?]
    rw [add_offer_eq_update api _ cid oid w2 n2 _ hfind2]
    refine ⟨?_, rfl, rfl, rfl, rfl, ?_⟩
    · rw [offerKeyCount_upd_addoffer]
      unfold offerKeyCount
      have hnil : db.offers.filter (fun r => r.campaign == cid && r.offer_id == oid) = [] :=
        List.filter_eq_nil_iff.mpr hall
      simp only [List.filter_append, hnil]
      simp [List.filter]
    · intro r hr hrc hro
      simp only [DB.updOffers] at hr
      obtain ⟨x, hx, hxr⟩ := List.mem_map.mp hr
      rcases List.mem_append.mp hx with hx1 | hx2
      · exfalso
        have hxp : (x.campaign == cid && x.offer_id == oid) = false := by
          have := hall x hx1
          revert this
          cases x.campaign == cid && x.offer_id == oid <;> simp
        rw [hxp] at hxr
        simp only [Bool.false_eq_true, if_false] at hxr
        apply hall x hx1
        rw [hxr, hrc, hro]
        simp
      · rw [List.mem_singleton] at hx2
        subst hx2
        simp only [show ((⟨db.next_id, cid, none, oid, api.getOfferName oid, w1, false,
            "active", n1, n1⟩ : OfferRow).campaign == cid &&
            (⟨db.next_id, cid, none, oid, api.getOfferName oid, w1, false,
            "active", n1, n1⟩ : OfferRow).offer_id == oid) = true by simp,
          if_true] at hxr
        rw [← hxr]
  · -- both calls update the same existing row
    have hfindL : db.offers.find? (fun r => r.campaign == cid && r.offer_id == oid)
        = some ex := hfind
    have hmem : ex ∈ db.offers := List.mem_of_find?_eq_some hfindL
    have hkey : (ex.campaign == cid && ex.offer_id == oid) = true := by
      have h' := List.find?_some hfindL
      exact h'
    rw [add_offer_eq_update api db cid oid w1 n1 ex hfind]
    have hfind2 :
        findOfferByKey
          (db.updOffers (fun r => r.campaign == cid && r.offer_id == oid)
            (fun r => { r with
              flow := none, offer_name := api.getOfferName oid,
              weight := w1, status := "active", updated_at := n1 })) cid oid
          = some { ex with
              flow := none, offer_name := api.getOfferName oid,
              weight := w1, status := "active", updated_at := n1 } := by
      rw [findOfferByKey_upd_addoffer, hfind]
      simp only [Option.map_some']
      rw [if_pos hkey]
    rw [add_offer_eq_update api _ cid oid w2 n2 _ hfind2]
    refine ⟨?_, rfl, rfl, rfl, rfl, ?_⟩
    · rw [offerKeyCount_upd_addoffer, offerKeyCount_upd_addoffer]
      have hpos : 0 < offerKeyCount db cid oid :=
        List.length_pos_of_mem (List.mem_filter.mpr ⟨hmem, hkey⟩)
      omega
    · intro r hr hrc hro
      simp only [DB.updOffers] at hr
      obtain ⟨x, hx, hxr⟩ := List.mem_map.mp hr
      obtain ⟨y, hy, hyx⟩ := List.mem_map.mp hx
      have hyk : (y.campaign == cid && y.offer_id == oid) = true := by
        by_cases hk : (y.campaign == cid && y.offer_id == oid) = true
        · exact hk
        · exfalso
          rw [if_neg hk] at hyx
          subst hyx
          rw [if_neg hk] at hxr
          subst hxr
          apply hk
          rw [hrc, hro]
          simp
      have hyex : y = ex :=
        eq_of_mem_of_length_le_one _ huniq
          (List.mem_filter.mpr ⟨hy, hyk⟩) (List.mem_filter.mpr ⟨hmem, hkey⟩)
      subst hyex
      rw [if_pos hyk] at hyx
      subst hyx
      rw [if_pos (show ((({ y with
          flow := none, offer_name := api.getOfferName oid,
          weight := w1, status := "active", updated_at := n1 } : OfferRow).campaign == cid) &&
          (({ y with
          flow := none, offer_name := api.getOfferName oid,
          weight := w1, status := "active", updated_at := n1 } : OfferRow).offer_id == oid))
          = true from hyk)] at hxr
      rw [← hxr]

/-- Claim C5 witness: two adds of offer 7 into campaign 1 starting from the
empty database. -/
theorem C5_witness :
    offerKeyCount dbEmpty 1 7 ≤ 1 ∧
    (offerKeyCount (add_offer_to_campaign apiNull
        (add_offer_to_campaign apiNull dbEmpty 1 7 2 5).1 1 7 4 6).1 1 7 = 1 ∧
     (add_offer_to_campaign apiNull (add_offer_to_campaign apiNull dbEmpty 1 7 2 5).1
        1 7 4 6).2.id = (add_offer_to_campaign apiNull dbEmpty 1 7 2 5).2.id ∧
     (add_offer_to_campaign apiNull (add_offer_to_campaign apiNull dbEmpty 1 7 2 5).1
        1 7 4 6).2.status = "active" ∧
     (add_offer_to_campaign apiNull (add_offer_to_campaign apiNull dbEmpty 1 7 2 5).1
        1 7 4 6).2.weight = 4 ∧
     (add_offer_to_campaign apiNull (add_offer_to_campaign apiNull dbEmpty 1 7 2 5).1
        1 7 4 6).2.flow = none ∧
     (∀ r ∈ (add_offer_to_campaign apiNull (add_offer_to_campaign apiNull dbEmpty 1 7 2 5).1
        1 7 4 6).1.offers, r.campaign = 1 → r.offer_id = 7 →
       r = (add_offer_to_campaign apiNull (add_offer_to_campaign apiNull dbEmpty 1 7 2 5).1
        1 7 4 6).2)) :=
  ⟨by decide, C5_add_offer_idempotent apiNull dbEmpty 1 7 2 4 5 6 (by decide)⟩

/-- `remove_offer_from_campaign` on a flow-bound offer, characterized. -/
theorem remove_offer_eq_flow (db : DB) (cid : Nat) (oid : Int) (now : Nat)
    (ex : OfferRow) (fid : Nat)
    (h : findOfferByKey db cid oid = some ex) (hf : ex.flow = some fid) :
    remove_offer_from_campaign db cid oid now =
      Except.ok (recalculate_weights
        ((db.updOffers (fun r => r.campaign == cid && r.offer_id == oid)
            (fun r => { r with status := "removed", updated_at := now })).updFlows
          (fun f => f.id == fid)
          (fun f => { f with has_changes := true, updated_at := now }))
        fid now) := by
  unfold remove_offer_from_campaign
  simp only [h, hf]

/-- `bring_back_offer` on a flow-bound offer, characterized. -/
theorem bring_back_eq_flow (db : DB) (cid : Nat) (oid : Int) (now : Nat)
    (ex : OfferRow) (fid : Nat)
    (h : findOfferByKey db cid oid = some ex) (hf : ex.flow = some fid) :
    bring_back_offer db cid oid now =
      Except.ok (recalculate_weights
        ((db.updOffers (fun r => r.campaign == cid && r.offer_id == oid)
            (fun r => { r with status := "active", updated_at := now })).updFlows
          (fun f => f.id == fid)
          (fun f => { f with has_changes := true, updated_at := now }))
        fid now, { ex with status := "active", updated_at := now }) := by
  unfold bring_back_offer
  simp only [h, hf]

/-! ### Claim C10 (adding an existing bound offer detaches silently) -/

/-- Claim C10: when `add_offer_to_campaign` hits an offer that already exists
and is bound to a flow, it detaches it (flow binding becomes null) without
touching any flow row (so no `has_changes` flag is set) and without changing
any other offer row (no weight recalculation) -- whereas
`remove_offer_from_campaign` and `bring_back_offer` on the same offer both
mark the flow dirty and recalculate weights (every unpinned active sibling
ends at weight 1). -/
theorem C10_add_detach_frame (api : Api) (db : DB) (cid : Nat) (oid : Int)
    (w : Int) (now : Nat) (fid : Nat) (ex : OfferRow)
    (hfind : findOfferByKey db cid oid = some ex) (hflow : ex.flow = some fid) :
    (add_offer_to_campaign api db cid oid w now).2.flow = none ∧
    (add_offer_to_campaign api db cid oid w now).1.flows = db.flows ∧
    (∀ r ∈ db.offers, ¬(r.campaign = cid ∧ r.offer_id = oid) →
        r ∈ (add_offer_to_campaign api db cid oid w now).1.offers) ∧
    (∀ db2, remove_offer_from_campaign db cid oid now = Except.ok db2 →
        (∀ f ∈ db2.flows, f.id = fid → f.has_changes = true) ∧
        (∀ r ∈ db2.offers, r.flow = some fid → r.status = "active" →
            r.weight_pinned = false → r.weight = 1)) ∧
    (∀ db2 off2, bring_back_offer db cid oid now = Except.ok (db2, off2) →
        (∀ f ∈ db2.flows, f.id = fid → f.has_changes = true) ∧
        (∀ r ∈ db2.offers, r.flow = some fid → r.status = "active" →
            r.weight_pinned = false → r.weight = 1)) := by
  refine ⟨?_, ?_, ?_, ?_, ?_⟩
  · rw [add_offer_eq_update api db cid oid w now ex hfind]
  · rw [add_offer_eq_update api db cid oid w now ex hfind]
    rfl
  · intro r hr hnk
    rw [add_offer_eq_update api db cid oid w now ex hfind]
    simp only [DB.updOffers]
    have hk : (r.campaign == cid && r.offer_id == oid) = false := by
      by_cases h : (r.campaign == cid && r.offer_id == oid) = true
      · exfalso
        apply hnk
        simp only [Bool.and_eq_true, beq_iff_eq] at h
        exact h
      · revert h
        cases r.campaign == cid && r.offer_id == oid <;> simp
    have : (fun x : OfferRow =>
        if x.campaign == cid && x.offer_id == oid
        then { x with
          flow := none, offer_name := api.getOfferName oid,
          weight := w, status := "active", updated_at := now } else x) r = r := by
      simp [hk]
    rw [← this]
    exact List.mem_map_of_mem _ hr
  · intro db2 hdb2
    rw [remove_offer_eq_flow db cid oid now ex fid hfind hflow] at hdb2
    simp only [Except.ok.injEq] at hdb2
    subst hdb2
    constructor
    · intro f hf hfid
      rw [recalculate_weights_flows] at hf
      simp only [DB.updFlows] at hf
      obtain ⟨x, hx, hxf⟩ := List.mem_map.mp hf
      by_cases hxid : (x.id == fid) = true
      · rw [if_pos hxid] at hxf
        rw [← hxf]
      · rw [if_neg hxid] at hxf
        exfalso
        apply hxid
        rw [hxf, hfid]
        simp
    · exact recalc_weight_one _ fid now
  · intro db2 off2 hdb2
    rw [bring_back_eq_flow db cid oid now ex fid hfind hflow] at hdb2
    simp only [Except.ok.injEq, Prod.mk.injEq] at hdb2
    obtain ⟨hdb2, _⟩ := hdb2
    subst hdb2
    constructor
    · intro f hf hfid
      rw [recalculate_weights_flows] at hf
      simp only [DB.updFlows] at hf
      obtain ⟨x, hx, hxf⟩ := List.mem_map.mp hf
      by_cases hxid : (x.id == fid) = true
      · rw [if_pos hxid] at hxf
        rw [← hxf]
      · rw [if_neg hxid] at hxf
        exfalso
        apply hxid
        rw [hxf, hfid]
        simp
    · exact recalc_weight_one _ fid now

/-- Claim C10 witness: in `dbC10`, re-adding bound offer 55 detaches it and
leaves the flow table alone, while removing it marks flow 3 dirty and resets
its remaining unpinned sibling to weight 1. -/
theorem C10_witness :
    (add_offer_to_campaign apiNull dbC10 1 55 2 7).2.flow = none ∧
    (add_offer_to_campaign apiNull dbC10 1 55 2 7).1.flows = dbC10.flows ∧
    (∀ f ∈ dbC10r.flows, f.id = 3 → f.has_changes = true) ∧
    (∀ r ∈ dbC10r.offers, r.flow = some 3 → r.status = "active" →
        r.weight_pinned = false → r.weight = 1) := by
  have h := C10_add_detach_frame apiNull dbC10 1 55 2 7 3
    ⟨4, 1, some 3, 55, "n", 5, false, "active", 0, 0⟩ (by decide) rfl
  have h4 := h.2.2.2.1 dbC10r (by rfl)
  exact ⟨h.1, h.2.1, h4.1, h4.2⟩

/-! ### Drift-sync preservation lemmas -/

theorem mem_map_if_pos {α} {l : List α} {x : α} (p : α → Bool) (f : α → α)
    (hx : x ∈ l) (hp : p x = true) :
    f x ∈ l.map (fun y => if p y then f y else y) :=
  List.mem_map.mpr ⟨x, hx, if_pos hp⟩

theorem mem_map_if_neg {α} {l : List α} {x : α} (p : α → Bool) (f : α → α)
    (hx : x ∈ l) (hp : p x = false) :
    x ∈ l.map (fun y => if p y then f y else y) :=
  List.mem_map.mpr ⟨x, hx, if_neg (by simp [hp])⟩

theorem processEntry_preserves_removed (api : Api) (cid flowId now : Nat) (db : DB)
    (e : RemoteOfferEntry) :
    ∀ r ∈ db.offers, r.campaign = cid → r.status = "removed" →
      r ∈ (processEntry api cid flowId now db e).offers := by
  intro r hr hc hstat
  unfold processEntry
  cases he : entryEffId e with
  | none => exact hr
  | some oid =>
    by_cases hrem : hasRemovedOffer db cid oid = true
    · simp only [hrem, if_true]
      exact hr
    · simp only [hrem, Bool.false_eq_true, if_false]
      cases hf : findOfferByKey db cid oid with
      | some found =>
        simp only [DB.updOffers]
        have hkr : (r.campaign == cid && r.offer_id == oid) = false := by
          by_cases h : (r.campaign == cid && r.offer_id == oid) = true
          · exfalso
            apply hrem
            unfold hasRemovedOffer
            refine List.any_eq_true.mpr ⟨r, hr, ?_⟩
            simp only [Bool.and_eq_true] at h ⊢
            exact ⟨h, by simp [hstat]⟩
          · revert h
            cases r.campaign == cid && r.offer_id == oid <;> simp
        have hgr : (fun x : OfferRow =>
            if x.campaign == cid && x.offer_id == oid
            then { x with
              flow := some flowId, weight := entryWeight e, status := "active",
              updated_at := now } else x) r = r := by
          simp [hkr]
        rw [← hgr]
        exact List.mem_map_of_mem _ hr
      | none =>
        simp only [DB.createOffer]
        exact List.mem_append_left _ hr

theorem foldl_processEntry_preserves_removed (api : Api) (cid flowId now : Nat)
    (es : List RemoteOfferEntry) :
    ∀ (db : DB), ∀ r ∈ db.offers, r.campaign = cid → r.status = "removed" →
      r ∈ (es.foldl (processEntry api cid flowId now) db).offers := by
  induction es with
  | nil => intro db r hr _ _; exact hr
  | cons e t ih =>
    intro db r hr hc hstat
    exact ih _ _ (processEntry_preserves_removed api cid flowId now db e r hr hc hstat)
      hc hstat

theorem processStream_preserves_removed (api : Api) (cid now : Nat) (db : DB)
    (sd : RemoteStream) :
    ∀ r ∈ db.offers, r.campaign = cid → r.status = "removed" →
      r ∈ (processStream api cid now db sd).offers := by
  intro r hr hc hstat
  unfold processStream
  by_cases hid : truthyInt? sd.id = true
  · simp only [hid, Bool.not_true, Bool.false_eq_true, if_false]
    cases hfl : db.flows.find? (fun f => f.campaign == cid && f.keitaro_id == sd.id) with
    | some fl => exact foldl_processEntry_preserves_removed api cid fl.id now _ _ r hr hc hstat
    | none => exact foldl_processEntry_preserves_removed api cid db.next_id now _ _ r hr hc hstat
  · have hid' : truthyInt? sd.id = false := by
      revert hid; cases truthyInt? sd.id <;> simp
    simp only [hid', Bool.not_false, if_true]
    exact hr

theorem foldl_processStream_preserves_removed (api : Api) (cid now : Nat)
    (ss : List RemoteStream) :
    ∀ (db : DB), ∀ r ∈ db.offers, r.campaign = cid → r.status = "removed" →
      r ∈ (ss.foldl (processStream api cid now) db).offers := by
  induction ss with
  | nil => intro db r hr _ _; exact hr
  | cons s t ih =>
    intro db r hr hc hstat
    exact ih _ _ (processStream_preserves_removed api cid now db s r hr hc hstat) hc hstat

theorem processEntry_preserves_notkey (api : Api) (cid flowId now : Nat) (db : DB)
    (e : RemoteOfferEntry) (r : OfferRow) (hr : r ∈ db.offers)
    (h : ∀ oid, entryEffId e = some oid → ¬(r.campaign = cid ∧ r.offer_id = oid)) :
    r ∈ (processEntry api cid flowId now db e).offers := by
  unfold processEntry
  cases he : entryEffId e with
  | none => exact hr
  | some oid =>
    by_cases hrem : hasRemovedOffer db cid oid = true
    · simp only [hrem, if_true]
      exact hr
    · simp only [hrem, Bool.false_eq_true, if_false]
      cases hf : findOfferByKey db cid oid with
      | some found =>
        simp only [DB.updOffers]
        have hkr : (r.campaign == cid && r.offer_id == oid) = false := by
          by_cases hx : (r.campaign == cid && r.offer_id == oid) = true
          · exfalso
            apply h oid he
            simp only [Bool.and_eq_true, beq_iff_eq] at hx
            exact hx
          · revert hx
            cases r.campaign == cid && r.offer_id == oid <;> simp
        have hgr : (fun x : OfferRow =>
            if x.campaign == cid && x.offer_id == oid
            then { x with
              flow := some flowId, weight := entryWeight e, status := "active",
              updated_at := now } else x) r = r := by
          simp [hkr]
        rw [← hgr]
        exact List.mem_map_of_mem _ hr
      | none =>
        simp only [DB.createOffer]
        exact List.mem_append_left _ hr

theorem foldl_processEntry_preserves_notkey (api : Api) (cid flowId now : Nat)
    (es : List RemoteOfferEntry) :
    ∀ (db : DB) (r : OfferRow), r ∈ db.offers →
      (∀ oid ∈ es.filterMap entryEffId, ¬(r.campaign = cid ∧ r.offer_id = oid)) →
      r ∈ (es.foldl (processEntry api cid flowId now) db).offers := by
  induction es with
  | nil => intro db r hr _; exact hr
  | cons e t ih =>
    intro db r hr h
    apply ih
    · apply processEntry_preserves_notkey api cid flowId now db e r hr
      intro oid he
      apply h
      rw [List.mem_filterMap]
      exact ⟨e, List.mem_cons_self e t, he⟩
    · intro oid hm
      apply h
      rw [List.filterMap_cons]
      cases entryEffId e with
      | none => exact hm
      | some v => exact List.mem_cons_of_mem v hm

theorem processStream_preserves_notkey (api : Api) (cid now : Nat) (db : DB)
    (sd : RemoteStream) (r : OfferRow) (hr : r ∈ db.offers)
    (h : ∀ oid ∈ streamEntryIds sd, ¬(r.campaign = cid ∧ r.offer_id = oid)) :
    r ∈ (processStream api cid now db sd).offers := by
  unfold processStream
  by_cases hid : truthyInt? sd.id = true
  · have hids : streamEntryIds sd = (effOffers sd).filterMap entryEffId := by
      unfold streamEntryIds
      rw [if_pos hid]
    rw [hids] at h
    simp only [hid, Bool.not_true, Bool.false_eq_true, if_false]
    cases hfl : db.flows.find? (fun f => f.campaign == cid && f.keitaro_id == sd.id) with
    | some fl => exact foldl_processEntry_preserves_notkey api cid fl.id now _ _ r hr h
    | none => exact foldl_processEntry_preserves_notkey api cid db.next_id now _ _ r hr h
  · have hid' : truthyInt? sd.id = false := by
      revert hid; cases truthyInt? sd.id <;> simp
    simp only [hid', Bool.not_false, if_true]
    exact hr

theorem foldl_processStream_preserves_notkey (api : Api) (cid now : Nat)
    (ss : List RemoteStream) :
    ∀ (db : DB) (r : OfferRow), r ∈ db.offers →
      (∀ oid ∈ keitaroIds ss, ¬(r.campaign = cid ∧ r.offer_id = oid)) →
      r ∈ (ss.foldl (processStream api cid now) db).offers := by
  induction ss with
  | nil => intro db r hr _; exact hr
  | cons s t ih =>
    intro db r hr h
    apply ih
    · apply processStream_preserves_notkey api cid now db s r hr
      intro oid hm
      apply h
      unfold keitaroIds
      rw [List.flatMap_cons]
      exact List.mem_append_left _ hm
    · intro oid hm
      apply h
      unfold keitaroIds
      rw [List.flatMap_cons]
      refine List.mem_append_right _ ?_
      exact hm

/-! ### Claim C4 (sync never resurrects a user-removed offer) -/

/-- Claim C4: in every drift-sync run, a CampaignOffer row of the campaign
that is `removed` beforehand survives the sync completely unchanged -- it is
neither reactivated nor is its flow binding or weight overwritten, even when
its offer id appears in a remote flow's offer list. -/
theorem C4_sync_preserves_removed (api : Api) (db : DB) (campaign : CampaignRow)
    (now : Nat) (streams : List RemoteStream)
    (hk : truthyInt? campaign.keitaro_id = true)
    (hs : api.getCampaignStreams campaign.keitaro_id = Except.ok streams) :
    ∃ db', fetch_streams_from_keitaro api db campaign now = Except.ok db' ∧
      ∀ r ∈ db.offers, r.campaign = campaign.id → r.status = "removed" →
        r ∈ db'.offers := by
  unfold fetch_streams_from_keitaro
  rw [hs]
  simp only [hk, Bool.not_true, Bool.false_eq_true, if_false]
  by_cases hemp : streams.isEmpty
  · refine ⟨db, ?_, ?_⟩
    · rw [if_pos hemp]
    · intro r hr _ _
      exact hr
  · rw [if_neg hemp]
    refine ⟨_, rfl, ?_⟩
    intro r hr hc hstat
    have h1 : r ∈ (streams.foldl (processStream api campaign.id now) db).offers :=
      foldl_processStream_preserves_removed api campaign.id now streams db r hr hc hstat
    simp only [DB.updOffers]
    have hpred : (r.campaign == campaign.id && r.status == "active" &&
        r.flow.isSome && !((keitaroIds streams).contains r.offer_id)) = false := by
      simp [hstat]
    exact mem_map_if_neg _ _ h1 hpred

/-- Claim C4 witness: a user-removed offer 77 stays removed (same flow
binding and weight) although the remote stream still lists offer 77. -/
theorem C4_witness :
    truthyInt? campC46.keitaro_id = true ∧
    apiC4.getCampaignStreams campC46.keitaro_id = Except.ok [streamC4] ∧
    (∃ db', fetch_streams_from_keitaro apiC4 dbC4 campC46 9 = Except.ok db' ∧
      ∀ r ∈ dbC4.offers, r.campaign = campC46.id → r.status = "removed" →
        r ∈ db'.offers) :=
  ⟨rfl, rfl, C4_sync_preserves_removed apiC4 dbC4 campC46 9 [streamC4] rfl rfl⟩

/-! ### Claim C6 (post-sync removal of offers absent remotely) -/

/-- Claim C6, counterexample: with a remote listing of zero flows the sync
returns early (services.py lines 582-584); a flow-bound active offer whose id
is (vacuously) absent from every remote flow's offer list is NOT marked
`removed`, contradicting the claim's zero-flow case. -/
theorem C6_counterexample :
    fetch_streams_from_keitaro apiNull dbC6 campC46 99 = Except.ok dbC6 ∧
    (⟨3, 1, some 2, 77, "x", 2, false, "active", 0, 0⟩ : OfferRow) ∈ dbC6.offers ∧
    (⟨3, 1, some 2, 77, "x", 2, false, "active", 0, 0⟩ : OfferRow).status ≠ "removed" :=
  ⟨rfl, by decide, by decide⟩

/-- Claim C6 (amended): when the remote listing is non-empty, after the sync
every local active offer of the campaign that is bound to a flow and whose
offer id was absent from every remote flow's offer list is marked `removed`,
while active offers with a null flow binding (and an id absent remotely) are
left untouched; when the listing contains zero flows the sync returns early
and changes nothing. -/
theorem C6_sync_marks_absent (api : Api) (db : DB) (campaign : CampaignRow)
    (now : Nat) (streams : List RemoteStream)
    (hk : truthyInt? campaign.keitaro_id = true)
    (hs : api.getCampaignStreams campaign.keitaro_id = Except.ok streams) :
    (streams = [] → fetch_streams_from_keitaro api db campaign now = Except.ok db) ∧
    (streams ≠ [] →
      ∃ db', fetch_streams_from_keitaro api db campaign now = Except.ok db' ∧
        (∀ r ∈ db.offers, r.campaign = campaign.id → r.status = "active" →
          r.flow.isSome = true → r.offer_id ∉ keitaroIds streams →
          { r with status := "removed", updated_at := now } ∈ db'.offers) ∧
        (∀ r ∈ db.offers, r.campaign = campaign.id → r.status = "active" →
          r.flow = none → r.offer_id ∉ keitaroIds streams →
          r ∈ db'.offers)) := by
  constructor
  · intro hnil
    subst hnil
    unfold fetch_streams_from_keitaro
    rw [hs]
    simp [hk]
  · intro hne
    unfold fetch_streams_from_keitaro
    rw [hs]
    simp only [hk, Bool.not_true, Bool.false_eq_true, if_false]
    have hemp : streams.isEmpty = false := by
      revert hne
      cases streams <;> simp
    rw [hemp]
    simp only [Bool.false_eq_true, if_false]
    refine ⟨_, rfl, ?_, ?_⟩
    · intro r hr hc hstat hbound habs
      have h1 : r ∈ (streams.foldl (processStream api campaign.id now) db).offers := by
        apply foldl_processStream_preserves_notkey api campaign.id now streams db r hr
        intro oid hm hco
        exact habs (hco.2 ▸ hm)
      simp only [DB.updOffers]
      have hcont : (keitaroIds streams).contains r.offer_id = false := by
        simpa using habs
      have hpred : (r.campaign == campaign.id && r.status == "active" &&
          r.flow.isSome && !((keitaroIds streams).contains r.offer_id)) = true := by
        simp [hc, hstat, hbound, hcont, habs]
      exact mem_map_if_pos _ _ h1 hpred
    · intro r hr hc hstat hunbound habs
      have h1 : r ∈ (streams.foldl (processStream api campaign.id now) db).offers := by
        apply foldl_processStream_preserves_notkey api campaign.id now streams db r hr
        intro oid hm hco
        exact habs (hco.2 ▸ hm)
      simp only [DB.updOffers]
      have hpred : (r.campaign == campaign.id && r.status == "active" &&
          r.flow.isSome && !((keitaroIds streams).contains r.offer_id)) = false := by
        simp [hunbound]
      exact mem_map_if_neg _ _ h1 hpred

/-- Claim C6 witness: one remote stream with an empty offer list; the bound
active offer 77 ends `removed` while the unbound active offer 88 is
untouched. -/
theorem C6_witness :
    (⟨3, 1, some 2, 77, "x", 2, false, "removed", 0, 9⟩ : OfferRow) ∈
      (match fetch_streams_from_keitaro apiC6 dbC6w campC46 9 with
        | .ok d => d
        | .error _ => dbC6w).offers ∧
    (⟨4, 1, none, 88, "y", 2, false, "active", 0, 0⟩ : OfferRow) ∈
      (match fetch_streams_from_keitaro apiC6 dbC6w campC46 9 with
        | .ok d => d
        | .error _ => dbC6w).offers := by
  have h := (C6_sync_marks_absent apiC6 dbC6w campC46 9 [streamC6] rfl rfl).2
    (by intro hx; cases hx)
  obtain ⟨db', heq, hmark, hkeep⟩ := h
  constructor
  · have := hmark ⟨3, 1, some 2, 77, "x", 2, false, "active", 0, 0⟩ (by decide)
      rfl rfl rfl (by decide)
    rw [heq]
    exact this
  · have := hkeep ⟨4, 1, none, 88, "y", 2, false, "active", 0, 0⟩ (by decide)
      rfl rfl rfl (by decide)
    rw [heq]
    exact this

/-! ### Claim C7 (cancel unpublished flow changes) -/

/-- Rows of the recalculated state come from rows of the input state with the
same id and status (only weights and timestamps change). -/
theorem recalc_surj (db : DB) (fid now : Nat) :
    ∀ r' ∈ (recalculate_weights db fid now).offers,
      ∃ x ∈ db.offers, r'.id = x.id ∧ r'.status = x.status := by
  intro r' hr'
  unfold recalculate_weights at hr'
  by_cases hemp : (db.offers.filter (fun r =>
      r.flow == some fid && r.status == "active" && !r.weight_pinned)).isEmpty
  · rw [if_pos hemp] at hr'
    exact ⟨r', hr', rfl, rfl⟩
  · rw [if_neg hemp] at hr'
    simp only [DB.updOffers] at hr'
    obtain ⟨x, hx, hxr⟩ := List.mem_map.mp hr'
    by_cases hpx : (x.flow == some fid && x.status == "active" && !x.weight_pinned) = true
    · rw [if_pos hpx] at hxr
      exact ⟨x, hx, by rw [← hxr], by rw [← hxr]⟩
    · rw [if_neg hpx] at hxr
      exact ⟨x, hx, by rw [← hxr], by rw [← hxr]⟩

/-- Every row of the input state is represented in the recalculated state by
a row with the same id and status. -/
theorem recalc_mem_of (db : DB) (fid now : Nat) :
    ∀ x ∈ db.offers, ∃ r' ∈ (recalculate_weights db fid now).offers,
      r'.id = x.id ∧ r'.status = x.status := by
  intro x hx
  unfold recalculate_weights
  by_cases hemp : (db.offers.filter (fun r =>
      r.flow == some fid && r.status == "active" && !r.weight_pinned)).isEmpty
  · rw [if_pos hemp]
    exact ⟨x, hx, rfl, rfl⟩
  · rw [if_neg hemp]
    simp only [DB.updOffers]
    by_cases hpx : (x.flow == some fid && x.status == "active" && !x.weight_pinned) = true
    · exact ⟨_, mem_map_if_pos _ _ hx hpx, rfl, rfl⟩
    · have hpx' : (x.flow == some fid && x.status == "active" && !x.weight_pinned) = false := by
        revert hpx
        cases x.flow == some fid && x.status == "active" && !x.weight_pinned <;> simp
      exact ⟨x, mem_map_if_neg _ _ hx hpx', rfl, rfl⟩

theorem eq_of_id_of_nodup {l : List OfferRow}
    (h : (l.map (fun r => r.id)).Nodup) {a b : OfferRow}
    (ha : a ∈ l) (hb : b ∈ l) (hid : a.id = b.id) : a = b :=
  List.inj_on_of_nodup_map h ha hb hid

/-- Claim C7: `cancel_flow_changes` deletes every active offer of the flow
created after the flow's `updated_at` (given the `auto_now` invariant
`created_at <= updated_at`), reactivates every offer of the flow marked
`removed` after that timestamp, clears the flow's `has_changes` flag, and
recalculates weights (afterwards every unpinned active offer of the flow has
weight 1).  Primary-key uniqueness of the offer rows is assumed. -/
theorem C7_cancel_flow_changes (db : DB) (flow : FlowRow) (now : Nat)
    (hids : (db.offers.map (fun r => r.id)).Nodup) :
    (∀ r ∈ db.offers, r.flow = some flow.id → r.status = "active" →
       flow.updated_at < r.created_at → r.created_at ≤ r.updated_at →
       ∀ r' ∈ (cancel_flow_changes db flow now).offers, r'.id ≠ r.id) ∧
    (∀ r ∈ db.offers, r.flow = some flow.id → r.status = "removed" →
       flow.updated_at < r.updated_at →
       ∃ r' ∈ (cancel_flow_changes db flow now).offers,
         r'.id = r.id ∧ r'.status = "active") ∧
    (∀ f ∈ (cancel_flow_changes db flow now).flows, f.id = flow.id →
       f.has_changes = false) ∧
    (∀ r ∈ (cancel_flow_changes db flow now).offers, r.flow = some flow.id →
       r.status = "active" → r.weight_pinned = false → r.weight = 1) := by
  refine ⟨?_, ?_, ?_, ?_⟩
  · intro r hr hf hs hcr hmono r' hr' heq
    unfold cancel_flow_changes at hr'
    obtain ⟨x3, hx3, hid3, _⟩ := recalc_surj _ flow.id now r' hr'
    -- flows update does not touch offers; unwind the revert map
    simp only [DB.updFlows, DB.updOffers] at hx3
    obtain ⟨x1, hx1, hx13⟩ := List.mem_map.mp hx3
    have hid13 : x1.id = x3.id := by
      by_cases hp : (x1.flow == some flow.id && x1.status == "removed" &&
          decide (flow.updated_at < x1.updated_at)) = true
      · rw [if_pos hp] at hx13
        rw [← hx13]
      · rw [if_neg hp] at hx13
        rw [hx13]
    obtain ⟨hx1d, hkeep⟩ := List.mem_filter.mp hx1
    have hx1r : x1 = r :=
      eq_of_id_of_nodup hids hx1d hr (by rw [hid13, ← hid3, heq])
    subst hx1r
    have hdel : (x1.flow == some flow.id && x1.status == "active" &&
        decide (flow.updated_at < x1.updated_at)) = true := by
      have : flow.updated_at < x1.updated_at := lt_of_lt_of_le hcr hmono
      simp [hf, hs, this]
    rw [hdel] at hkeep
    simp at hkeep
  · intro r hr hf hs hts
    unfold cancel_flow_changes
    have hkeep : (!(r.flow == some flow.id && r.status == "active" &&
        decide (flow.updated_at < r.updated_at))) = true := by
      simp [hs]
    have hr1 : r ∈ (db.offers.filter (fun r =>
        !(r.flow == some flow.id && r.status == "active" &&
          decide (flow.updated_at < r.updated_at)))) :=
      List.mem_filter.mpr ⟨hr, hkeep⟩
    have hrev : (r.flow == some flow.id && r.status == "removed" &&
        decide (flow.updated_at < r.updated_at)) = true := by
      simp [hf, hs, hts]
    have hr2 : ({ r with status := "active" } : OfferRow) ∈
        (((({ db with offers := db.offers.filter (fun r =>
            !(r.flow == some flow.id && r.status == "active" &&
              decide (flow.updated_at < r.updated_at))) } : DB).updOffers
          (fun r => r.flow == some flow.id && r.status == "removed" &&
                    decide (flow.updated_at < r.updated_at))
          (fun r => { r with status := "active" })).updFlows
          (fun f => f.id == flow.id)
          (fun f => { f with has_changes := false, updated_at := now })).offers) :=
      mem_map_if_pos _ _ hr1 hrev
    obtain ⟨r', hr', hid', hst'⟩ := recalc_mem_of _ flow.id now _ hr2
    exact ⟨r', hr', hid', hst'⟩
  · intro f hf hfid
    unfold cancel_flow_changes at hf
    rw [recalculate_weights_flows] at hf
    simp only [DB.updFlows] at hf
    obtain ⟨x, hx, hxf⟩ := List.mem_map.mp hf
    by_cases hxid : (x.id == flow.id) = true
    · rw [if_pos hxid] at hxf
      rw [← hxf]
    · rw [if_neg hxid] at hxf
      exfalso
      apply hxid
      rw [hxf, hfid]
      simp
  · exact recalc_weight_one _ flow.id now

/-- Claim C7 witness: on `dbC7` with `flowC7` (T0 = 10), the row added at
t=12 is deleted, the row removed at t=15 reverts to `active`, the flow's
`has_changes` clears, and the remaining unpinned active offers have
weight 1. -/
theorem C7_witness :
    (∀ r' ∈ (cancel_flow_changes dbC7 flowC7 30).offers, r'.id ≠ 7) ∧
    (∃ r' ∈ (cancel_flow_changes dbC7 flowC7 30).offers,
       r'.id = 8 ∧ r'.status = "active") ∧
    (∀ f ∈ (cancel_flow_changes dbC7 flowC7 30).flows, f.id = 5 →
       f.has_changes = false) ∧
    (∀ r ∈ (cancel_flow_changes dbC7 flowC7 30).offers, r.flow = some 5 →
       r.status = "active" → r.weight_pinned = false → r.weight = 1) := by
  have h := C7_cancel_flow_changes dbC7 flowC7 30 (by decide)
  refine ⟨?_, ?_, h.2.2.1, h.2.2.2⟩
  · exact h.1 ⟨7, 1, some 5, 60, "", 3, false, "active", 12, 12⟩ (by decide)
      rfl rfl (by decide) (by decide)
  · exact h.2.1 ⟨8, 1, some 5, 61, "", 4, false, "removed", 0, 15⟩ (by decide)
      rfl rfl (by decide)

/-! ### Claim C2 (campaign persistence anchored to the returned id) -/

theorem flow1Scan_campaigns (cid : Nat) (geo : String) (now : Nat) (db : DB) :
    ∀ streams : List RemoteStream, (flow1Scan db cid geo now streams).campaigns = db.campaigns := by
  intro streams
  induction streams with
  | nil => rfl
  | cons s rest ih =>
    unfold flow1Scan
    split
    · split
      · exact ih
      · rfl
    · exact ih

theorem checkSaveScan_campaigns (cid : Nat) (oid : Int) (onm : String) (now : Nat)
    (db : DB) :
    ∀ (streams : List RemoteStream) (db' : DB) (fl : FlowRow),
      checkSaveScan db cid oid onm now streams = some (db', fl) →
      db'.campaigns = db.campaigns := by
  intro streams
  induction streams with
  | nil =>
    intro db' fl h
    exact Option.noConfusion h
  | cons s rest ih =>
    intro db' fl h
    unfold checkSaveScan at h
    split at h
    · exact Option.noConfusion h
    · split at h
      · exact Option.noConfusion h
      · split at h
        · split at h
          · rw [Option.some.injEq, Prod.mk.injEq] at h
            obtain ⟨h1, _⟩ := h
            rw [← h1]
            rfl
          · split at h
            · rw [Option.some.injEq, Prod.mk.injEq] at h
              obtain ⟨h1, _⟩ := h
              rw [← h1]
              rfl
            · rw [Option.some.injEq, Prod.mk.injEq] at h
              obtain ⟨h1, _⟩ := h
              rw [← h1]
              rfl
        · exact ih db' fl h

theorem check_and_save_campaigns (api : Api) (db : DB) (cid : Nat)
    (ckid : Option Int) (oid : Int) (onm : String) (now : Nat) :
    (check_and_save_flow_if_exists api db cid ckid oid onm now).1.campaigns
      = db.campaigns := by
  unfold check_and_save_flow_if_exists
  cases api.getCampaignStreams ckid with
  | error e => rfl
  | ok streams =>
    dsimp only
    cases hs : checkSaveScan db cid oid onm now streams with
    | none => rfl
    | some p =>
      cases p with
      | mk db' fl => exact checkSaveScan_campaigns cid oid onm now db streams db' fl hs

theorem flow1Step_campaigns (api : Api) (db : DB) (camp : CampaignRow)
    (geo : String) (now : Nat) :
    (flow1Step api db camp geo now).campaigns = db.campaigns := by
  unfold flow1Step
  cases api.createFlow (flow1Req api camp geo) with
  | error e =>
    cases api.getCampaignStreams camp.keitaro_id with
    | ok streams => exact flow1Scan_campaigns camp.id geo now db streams
    | error e' => rfl
  | ok r =>
    cases r with
    | none =>
      cases api.getCampaignStreams camp.keitaro_id with
      | ok streams => exact flow1Scan_campaigns camp.id geo now db streams
      | error e' => rfl
    | some d =>
      dsimp only
      by_cases hd : truthyInt? d.id = true
      · rw [if_pos hd]
        rfl
      · rw [if_neg hd]

theorem flow2Step_campaigns (api : Api) (db : DB) (camp : CampaignRow)
    (oid : Int) (now : Nat) :
    (flow2Step api db camp oid now).campaigns = db.campaigns := by
  unfold flow2Step
  cases api.createFlow (flow2Req api camp oid) with
  | error e =>
    cases hq : check_and_save_flow_if_exists api db camp.id camp.keitaro_id oid
        (api.getOfferName oid) now with
    | mk db' ofl =>
      have hc : db'.campaigns = db.campaigns := by
        have := check_and_save_campaigns api db camp.id camp.keitaro_id oid
          (api.getOfferName oid) now
        rw [hq] at this
        exact this
      cases ofl with
      | some fl =>
        simp only []
        exact hc
      | none =>
        simp only [DB.createOffer]
        exact hc
  | ok r =>
    cases r with
    | none =>
      exact check_and_save_campaigns api db camp.id camp.keitaro_id oid
        (api.getOfferName oid) now
    | some d =>
      dsimp only
      by_cases hd : truthyInt? d.id = true
      · rw [if_pos hd]
        rfl
      · rw [if_neg hd]

/-- Claim C2: when the remote campaign-creation response carries no usable
identifier (no body, or a falsy `id`), `create_campaign_with_flows` fails
hard and persists no Campaign row; otherwise a Campaign row is persisted
(and survives the subsequent flow creation, whatever the oracle answers)
whose `keitaro_id` is non-null and equal to the identifier returned by the
creation call. -/
theorem C2_campaign_persist (api : Api) (db : DB) (name geo : String)
    (offer_id : Int) (domain group source : Option String) (now : Nat) :
    (∀ resp, api.createCampaign = Except.ok (some resp) → truthyInt? resp.id = true →
      ∃ db' camp,
        create_campaign_with_flows api db name geo offer_id domain group source now
          = (db', Except.ok camp) ∧ camp.keitaro_id = resp.id ∧
        truthyInt? camp.keitaro_id = true ∧ camp ∈ db'.campaigns) ∧
    (∀ resp, api.createCampaign = Except.ok (some resp) → truthyInt? resp.id = false →
      create_campaign_with_flows api db name geo offer_id domain group source now
        = (db, Except.error "no campaign id")) ∧
    (api.createCampaign = Except.ok none →
      create_campaign_with_flows api db name geo offer_id domain group source now
        = (db, Except.error "no response object")) := by
  refine ⟨?_, ?_, ?_⟩
  · intro resp h hid
    unfold create_campaign_with_flows
    rw [h]
    simp only [hid, Bool.not_true, Bool.false_eq_true, if_false]
    refine ⟨_, _, rfl, rfl, hid, ?_⟩
    rw [flow2Step_campaigns, flow1Step_campaigns]
    simp only [DB.createCampaign]
    exact List.mem_append_right _ (List.mem_singleton.mpr rfl)
  · intro resp h hid
    unfold create_campaign_with_flows
    rw [h]
    simp only [hid, Bool.not_false, if_true]
  · intro h
    unfold create_campaign_with_flows
    rw [h]

/-- Claim C2 witness: with a returned id 9001 a Campaign row anchored to 9001
is persisted; with a missing or falsy id the call fails with the database
unchanged. -/
theorem C2_witness :
    (∃ db' camp,
      create_campaign_with_flows apiC2 dbEmpty "Test" "AU" 501 none none none 3
        = (db', Except.ok camp) ∧ camp.keitaro_id = some 9001 ∧
      truthyInt? camp.keitaro_id = true ∧ camp ∈ db'.campaigns) ∧
    (create_campaign_with_flows apiC2z dbEmpty "Test" "AU" 501 none none none 3
      = (dbEmpty, Except.error "no campaign id")) ∧
    (create_campaign_with_flows apiNull dbEmpty "Test" "AU" 501 none none none 3
      = (dbEmpty, Except.error "no response object")) := by
  refine ⟨?_, ?_, ?_⟩
  · exact (C2_campaign_persist apiC2 dbEmpty "Test" "AU" 501 none none none 3).1
      ⟨some 9001⟩ rfl rfl
  · exact (C2_campaign_persist apiC2z dbEmpty "Test" "AU" 501 none none none 3).2.1
      ⟨none⟩ rfl rfl
  · exact (C2_campaign_persist apiNull dbEmpty "Test" "AU" 501 none none none 3).2.2 rfl

/-! ### Claim C1 (import on ambiguous flow-creation failure) -/

theorem saveOffersToDb_flows (api : Api) (cid fid now : Nat) :
    ∀ (ids : List Int) (db : DB),
      (saveOffersToDb api db cid fid ids now).flows = db.flows := by
  intro ids
  induction ids with
  | nil => intro db; rfl
  | cons i t ih =>
    intro db
    unfold saveOffersToDb
    simp only [List.foldl_cons]
    cases hf : findOfferByKey db cid i with
    | some x => exact ih db
    | none => exact ih _

/-- The condition chain of the offer-redirect branch, evaluated. -/
theorem cffc_or_eval (api : Api) (db : DB) (campaign : CampaignRow)
    (nm offer_ids : String) (ids : List Int) (now : Nat)
    (hk : truthyInt? campaign.keitaro_id = true)
    (hs0 : offer_ids ≠ "")
    (hp : parseOfferIds offer_ids = some ids)
    (hne : ids ≠ []) :
    create_flow_for_campaign api db campaign nm "offer_redirect" none none
        (some offer_ids) now
      = (match orFormats api campaign nm ids orAttemptList (offerFormats ids) none with
         | some d =>
           if truthyInt? d.id then
             (saveOffersToDb api
                (db.createFlow (fun i =>
                  ⟨i, campaign.id, d.id, d.name.getD nm, "offer_redirect", "", "",
                   true, false, now, now⟩)).1
                campaign.id
                (db.createFlow (fun i =>
                  ⟨i, campaign.id, d.id, d.name.getD nm, "offer_redirect", "", "",
                   true, false, now, now⟩)).2.id ids now,
              Except.ok (db.createFlow (fun i =>
                  ⟨i, campaign.id, d.id, d.name.getD nm, "offer_redirect", "", "",
                   true, false, now, now⟩)).2)
           else (db, Except.error "create flow failed")
         | none => (db, Except.error "create flow failed")) := by
  have hso : truthyOptStr (some offer_ids) = true := by
    simp [truthyOptStr, hs0]
  have hido : ids.isEmpty = false := by
    cases ids with
    | nil => exact absurd rfl hne
    | cons a t => rfl
  unfold create_flow_for_campaign
  rw [hk]
  rw [show ((!true : Bool)) = false from rfl, if_neg Bool.false_ne_true]
  rw [show (("offer_redirect" : String) == "country_filter") = false from rfl,
    if_neg Bool.false_ne_true]
  rw [show (("offer_redirect" : String) == "offer_redirect") = true from rfl,
    if_pos rfl]
  rw [hso, show ((!true : Bool)) = false from rfl, if_neg Bool.false_ne_true]
  rw [show ((some offer_ids).getD "") = offer_ids from rfl, hp]
  dsimp only
  rw [hido, if_neg Bool.false_ne_true]

theorem orAttempts_none_all (api : Api) (campaign : CampaignRow) (nm : String)
    (ids : List Int) (fmt : List FmtEntry)
    (hnone : ∀ req, api.createFlow req = Except.ok none) :
    ∀ atts, orAttempts api campaign nm ids fmt atts none = (none, false) := by
  intro atts
  induction atts with
  | nil => rfl
  | cons att rest ih =>
    unfold orAttempts
    rw [hnone]
    dsimp only [truthyResp]
    rw [if_neg Bool.false_ne_true]
    exact ih

theorem orFormats_none_all (api : Api) (campaign : CampaignRow) (nm : String)
    (ids : List Int) (atts : List (String × Option String))
    (hnone : ∀ req, api.createFlow req = Except.ok none) :
    ∀ fmts, orFormats api campaign nm ids atts fmts none = none := by
  intro fmts
  induction fmts with
  | nil => rfl
  | cons fmt rest ih =>
    unfold orFormats
    rw [if_neg (by decide : ¬ truthyResp none = true)]
    rw [orAttempts_none_all api campaign nm ids fmt hnone atts]
    dsimp only
    rw [if_neg (by decide : ¬ truthyResp none = true)]
    exact ih

/-- Offer-redirect flow creation where every attempt yields the ambiguous
`None` sentinel: the branch raises without consulting the listing. -/
theorem offer_redirect_none_fails (api : Api) (db : DB) (campaign : CampaignRow)
    (nm offer_ids : String) (ids : List Int) (now : Nat)
    (hk : truthyInt? campaign.keitaro_id = true)
    (hs0 : offer_ids ≠ "")
    (hp : parseOfferIds offer_ids = some ids)
    (hne : ids ≠ [])
    (hnone : ∀ req, api.createFlow req = Except.ok none) :
    create_flow_for_campaign api db campaign nm "offer_redirect" none none
        (some offer_ids) now
      = (db, Except.error "create flow failed") := by
  rw [cffc_or_eval api db campaign nm offer_ids ids now hk hs0 hp hne]
  rw [orFormats_none_all api campaign nm ids orAttemptList hnone (offerFormats ids)]

/-- Offer-redirect flow creation where every attempt raises a 500-class
error and the listing contains a first matching stream with a truthy id:
that stream is imported. -/
theorem offer_redirect_500_imports (api : Api) (db : DB) (campaign : CampaignRow)
    (nm offer_ids : String) (ids : List Int) (streams : List RemoteStream)
    (s : RemoteStream) (now : Nat)
    (hk : truthyInt? campaign.keitaro_id = true)
    (hs0 : offer_ids ≠ "")
    (hp : parseOfferIds offer_ids = some ids)
    (hne : ids ≠ [])
    (h500 : ∀ req, ∃ e, api.createFlow req = Except.error e ∧ e.is500 = true)
    (hls : api.getCampaignStreams campaign.keitaro_id = Except.ok streams)
    (hfind : streams.find? (fun t => offerStreamMatches nm ids t) = some s)
    (hid : truthyInt? s.id = true) :
    ∃ db' fl,
      create_flow_for_campaign api db campaign nm "offer_redirect" none none
          (some offer_ids) now = (db', Except.ok fl) ∧
      fl.keitaro_id = s.id ∧ fl.flow_type = "offer_redirect" ∧ fl ∈ db'.flows := by
  have hloop : orFormats api campaign nm ids orAttemptList (offerFormats ids) none
      = some { id := s.id, name := some s.name } := by
    obtain ⟨e1, he1, h5⟩ := h500
      { campaign_id := campaign.keitaro_id, name := nm, action_type := none,
        payload := .offersDict (ids.map (fun oid =>
          { idKey := "id", oid := oid, wKey := "weight", w := 1 })),
        schema := "landings", filters := none }
    unfold orFormats offerFormats orAttemptList
    dsimp only
    rw [if_neg (by decide : ¬ truthyResp none = true)]
    unfold orAttempts
    dsimp only
    rw [he1]
    dsimp only
    rw [h5, Bool.not_true, if_neg Bool.false_ne_true, hls]
    dsimp only
    rw [hfind]
    dsimp only [truthyResp]
    rw [hid, if_pos rfl]
  have heval : create_flow_for_campaign api db campaign nm "offer_redirect" none none
      (some offer_ids) now
      = (saveOffersToDb api
          (db.createFlow (fun i =>
            ⟨i, campaign.id, s.id, s.name, "offer_redirect", "", "",
             true, false, now, now⟩)).1
          campaign.id
          (db.createFlow (fun i =>
            ⟨i, campaign.id, s.id, s.name, "offer_redirect", "", "",
             true, false, now, now⟩)).2.id ids now,
         Except.ok (db.createFlow (fun i =>
            ⟨i, campaign.id, s.id, s.name, "offer_redirect", "", "",
             true, false, now, now⟩)).2) := by
    rw [cffc_or_eval api db campaign nm offer_ids ids now hk hs0 hp hne, hloop]
    dsimp only [Option.getD_some]
    rw [hid, if_pos rfl]
  refine ⟨_, _, heval, rfl, rfl, ?_⟩
  rw [saveOffersToDb_flows]
  exact List.mem_append_right _ (List.mem_singleton.mpr rfl)

/-- The condition chain of the country-filter branch, evaluated. -/
theorem cffc_cf_eval (api : Api) (db : DB) (campaign : CampaignRow)
    (nm ru co : String) (now : Nat)
    (hk : truthyInt? campaign.keitaro_id = true)
    (hru : ru ≠ "") (hco : co ≠ "") :
    create_flow_for_campaign api db campaign nm "country_filter" (some ru) (some co)
        none now
      = (match cfOuter api campaign nm (actionTypeForRedirect (getActionsCached api))
            (schemaForRedirect (getSchemasCached api)) co (cfPayloadVariants ru)
            (cfFilterVariants co) none with
         | some d =>
           if truthyInt? d.id then
             ((db.createFlow (fun i =>
                ⟨i, campaign.id, d.id, d.name.getD nm, "country_filter", co, ru,
                 true, false, now, now⟩)).1,
              Except.ok (db.createFlow (fun i =>
                ⟨i, campaign.id, d.id, d.name.getD nm, "country_filter", co, ru,
                 true, false, now, now⟩)).2)
           else cfGiveUp api db campaign nm (some co) (some ru) now
         | none => cfGiveUp api db campaign nm (some co) (some ru) now) := by
  have hruo : truthyOptStr (some ru) = true := by simp [truthyOptStr, hru]
  have hcoo : truthyOptStr (some co) = true := by simp [truthyOptStr, hco]
  unfold create_flow_for_campaign
  rw [hk, show ((!true : Bool)) = false from rfl, if_neg Bool.false_ne_true]
  rw [show (("country_filter" : String) == "country_filter") = true from rfl, if_pos rfl]
  rw [hruo, show ((!true : Bool)) = false from rfl, if_neg Bool.false_ne_true]
  rw [hcoo, show ((!true : Bool)) = false from rfl, if_neg Bool.false_ne_true]
  rw [show ((some co).getD "") = co from rfl, show ((some ru).getD "") = ru from rfl]

theorem cfInner_none_all (api : Api) (campaign : CampaignRow)
    (nm act sch co : String) (fv : List FilterSpec)
    (hnone : ∀ req, api.createFlow req = Except.ok none) :
    ∀ (apvs : List ReqPayload) (fd : Option FlowResp), apvs ≠ [] →
      cfInner api campaign nm act sch co fv apvs fd = (none, false) := by
  intro apvs
  induction apvs with
  | nil => intro fd h; exact absurd rfl h
  | cons apv rest ih =>
    intro fd h
    unfold cfInner cfAttempt
    rw [hnone]
    dsimp only [truthyResp]
    cases rest with
    | nil => rfl
    | cons b t => exact ih none (by simp)

theorem cfOuter_none_all (api : Api) (campaign : CampaignRow)
    (nm act sch co ru : String)
    (hnone : ∀ req, api.createFlow req = Except.ok none) :
    ∀ (fvs : List (List FilterSpec)) (fd : Option FlowResp), fvs ≠ [] →
      cfOuter api campaign nm act sch co (cfPayloadVariants ru) fvs fd = none := by
  intro fvs
  induction fvs with
  | nil => intro fd h; exact absurd rfl h
  | cons fv rest ih =>
    intro fd h
    unfold cfOuter
    rw [cfInner_none_all api campaign nm act sch co fv hnone (cfPayloadVariants ru) fd
      (by simp [cfPayloadVariants])]
    dsimp only
    rw [if_neg (by decide : ¬ truthyResp none = true)]
    cases rest with
    | nil => rfl
    | cons b t => exact ih none (by simp)

/-- The `_find_existing_flow` scan in the country-filter case, on a listing
of dict-payload streams with a first match not yet imported locally. -/
theorem fefScan_country_found (api : Api) (db : DB) (cid : Nat)
    (nm co ru : String) (now : Nat) :
    ∀ (streams : List RemoteStream) (s : RemoteStream),
      (∀ t ∈ streams, payloadAsDict? t.action_payload ≠ none) →
      streams.find? (fefCountryMatch nm (some co) (some ru)) = some s →
      db.flows.find? (fun f => f.keitaro_id == s.id) = none →
      fefScan api db cid nm "country_filter" [] (some co) (some ru) now streams
        = some ((db.createFlow (fun i =>
            ⟨i, cid, s.id, s.name, "country_filter", co, ru, true, false, now, now⟩)).1,
          (db.createFlow (fun i =>
            ⟨i, cid, s.id, s.name, "country_filter", co, ru, true, false, now, now⟩)).2) := by
  intro streams
  induction streams with
  | nil => intro s _ hfind _; exact Option.noConfusion hfind
  | cons t rest ih =>
    intro s hdict hfind hfresh
    obtain ⟨pd, hpd⟩ : ∃ pd, payloadAsDict? t.action_payload = some pd := by
      cases hx : payloadAsDict? t.action_payload with
      | none => exact absurd hx (hdict t (List.mem_cons_self t rest))
      | some pd => exact ⟨pd, rfl⟩
    have hm : fefMatches? nm "country_filter" [] (some co) (some ru) t
        = some (fefCountryMatch nm (some co) (some ru) t) := by
      unfold fefMatches?
      rw [show (("country_filter" : String) == "offer_redirect"
          && !(([] : List Int)).isEmpty) = false from rfl, if_neg Bool.false_ne_true]
      rw [show (("country_filter" : String) == "country_filter") = true from rfl,
        if_pos rfl]
      rw [hpd]
    unfold fefScan
    rw [hm]
    by_cases hmt : fefCountryMatch nm (some co) (some ru) t = true
    · have hst : t = s := by
        rw [List.find?_cons_of_pos _ hmt] at hfind
        exact Option.some.inj hfind
      subst hst
      rw [hmt]
      dsimp only
      rw [hfresh]
      dsimp only
      rw [show (("country_filter" : String) == "offer_redirect"
          && !(([] : List Int)).isEmpty) = false from rfl, if_neg Bool.false_ne_true]
      rfl
    · have hmf : fefCountryMatch nm (some co) (some ru) t = false := by
        revert hmt
        cases fefCountryMatch nm (some co) (some ru) t <;> simp
      rw [hmf]
      dsimp only
      rw [List.find?_cons_of_neg _ hmt] at hfind
      exact ih s (fun u hu => hdict u (List.mem_cons_of_mem t hu)) hfind hfresh

/-- Country-filter flow creation where every attempt yields the ambiguous
`None` sentinel: `_find_existing_flow` imports the first matching stream. -/
theorem country_filter_none_imports (api : Api) (db : DB) (campaign : CampaignRow)
    (nm ru co : String) (streams : List RemoteStream) (s : RemoteStream) (now : Nat)
    (hk : truthyInt? campaign.keitaro_id = true)
    (hru : ru ≠ "") (hco : co ≠ "")
    (hnone : ∀ req, api.createFlow req = Except.ok none)
    (hls : api.getCampaignStreams campaign.keitaro_id = Except.ok streams)
    (hdict : ∀ t ∈ streams, payloadAsDict? t.action_payload ≠ none)
    (hfind : streams.find? (fefCountryMatch nm (some co) (some ru)) = some s)
    (hfresh : db.flows.find? (fun f => f.keitaro_id == s.id) = none) :
    ∃ db' fl,
      create_flow_for_campaign api db campaign nm "country_filter" (some ru) (some co)
          none now = (db', Except.ok fl) ∧
      fl.keitaro_id = s.id ∧ fl.flow_type = "country_filter" ∧ fl ∈ db'.flows := by
  have houter : cfOuter api campaign nm (actionTypeForRedirect (getActionsCached api))
      (schemaForRedirect (getSchemasCached api)) co (cfPayloadVariants ru)
      (cfFilterVariants co) none = none :=
    cfOuter_none_all api campaign nm _ _ co ru hnone (cfFilterVariants co) none
      (by simp [cfFilterVariants])
  have heval : create_flow_for_campaign api db campaign nm "country_filter" (some ru)
      (some co) none now
      = ((db.createFlow (fun i =>
          ⟨i, campaign.id, s.id, s.name, "country_filter", co, ru,
           true, false, now, now⟩)).1,
         Except.ok (db.createFlow (fun i =>
          ⟨i, campaign.id, s.id, s.name, "country_filter", co, ru,
           true, false, now, now⟩)).2) := by
    rw [cffc_cf_eval api db campaign nm ru co now hk hru hco, houter]
    dsimp only
    unfold cfGiveUp find_existing_flow
    rw [hls]
    dsimp only
    rw [fefScan_country_found api db campaign.id nm co ru now streams s hdict hfind hfresh]
  refine ⟨_, _, heval, rfl, rfl, ?_⟩
  exact List.mem_append_right _ (List.mem_singleton.mpr rfl)

/-- Claim C1, counterexample: every creation attempt returns the ambiguous
`None` sentinel (the gateway's 500 signal), the campaign's remote listing
contains a stream matching the target flow name with a truthy id -- yet
`create_flow_for_campaign` for an `offer_redirect` flow reports failure with
nothing imported. -/
theorem C1_counterexample :
    create_flow_for_campaign apiC1n dbEmpty campC46 "My Flow" "offer_redirect"
        none none (some "7") 3
      = (dbEmpty, Except.error "create flow failed") ∧
    apiC1n.getCampaignStreams campC46.keitaro_id = Except.ok [streamC1] ∧
    offerStreamMatches "My Flow" [7] streamC1 = true ∧
    truthyInt? streamC1.id = true :=
  ⟨rfl, rfl, rfl, rfl⟩

/-- Claim C1 (amended): when an offer_redirect creation attempt raises a
500-class error and the campaign's remote stream listing has a first stream
matching by name substring or root-offer-id superset, with a truthy id, the
stream is imported as a local Flow carrying its remote id and returned; when
instead every attempt returns the ambiguous `None` sentinel, the
offer_redirect path reports failure without importing, while the
country_filter path still imports the first stream matched by
`_find_existing_flow` (name substring, country code in name, or redirect URL
in the payload URL). -/
theorem C1_ambiguous_import :
    (∀ (api : Api) (db : DB) (campaign : CampaignRow) (nm offer_ids : String)
       (ids : List Int) (streams : List RemoteStream) (s : RemoteStream) (now : Nat),
       truthyInt? campaign.keitaro_id = true → offer_ids ≠ "" →
       parseOfferIds offer_ids = some ids → ids ≠ [] →
       (∀ req, ∃ e, api.createFlow req = Except.error e ∧ e.is500 = true) →
       api.getCampaignStreams campaign.keitaro_id = Except.ok streams →
       streams.find? (fun t => offerStreamMatches nm ids t) = some s →
       truthyInt? s.id = true →
       ∃ db' fl, create_flow_for_campaign api db campaign nm "offer_redirect" none none
           (some offer_ids) now = (db', Except.ok fl) ∧
         fl.keitaro_id = s.id ∧ fl.flow_type = "offer_redirect" ∧ fl ∈ db'.flows) ∧
    (∀ (api : Api) (db : DB) (campaign : CampaignRow) (nm offer_ids : String)
       (ids : List Int) (now : Nat),
       truthyInt? campaign.keitaro_id = true → offer_ids ≠ "" →
       parseOfferIds offer_ids = some ids → ids ≠ [] →
       (∀ req, api.createFlow req = Except.ok none) →
       create_flow_for_campaign api db campaign nm "offer_redirect" none none
           (some offer_ids) now = (db, Except.error "create flow failed")) ∧
    (∀ (api : Api) (db : DB) (campaign : CampaignRow) (nm ru co : String)
       (streams : List RemoteStream) (s : RemoteStream) (now : Nat),
       truthyInt? campaign.keitaro_id = true → ru ≠ "" → co ≠ "" →
       (∀ req, api.createFlow req = Except.ok none) →
       api.getCampaignStreams campaign.keitaro_id = Except.ok streams →
       (∀ t ∈ streams, payloadAsDict? t.action_payload ≠ none) →
       streams.find? (fefCountryMatch nm (some co) (some ru)) = some s →
       db.flows.find? (fun f => f.keitaro_id == s.id) = none →
       ∃ db' fl, create_flow_for_campaign api db campaign nm "country_filter" (some ru)
           (some co) none now = (db', Except.ok fl) ∧
         fl.keitaro_id = s.id ∧ fl.flow_type = "country_filter" ∧ fl ∈ db'.flows) :=
  ⟨fun api db campaign nm offer_ids ids streams s now hk hs0 hp hne h500 hls hfind hid =>
     offer_redirect_500_imports api db campaign nm offer_ids ids streams s now
       hk hs0 hp hne h500 hls hfind hid,
   fun api db campaign nm offer_ids ids now hk hs0 hp hne hnone =>
     offer_redirect_none_fails api db campaign nm offer_ids ids now hk hs0 hp hne hnone,
   fun api db campaign nm ru co streams s now hk hru hco hnone hls hdict hfind hfresh =>
     country_filter_none_imports api db campaign nm ru co streams s now
       hk hru hco hnone hls hdict hfind hfresh⟩

/-- Claim C1 witness: against `streamC1` (id 42, name "my flow 2"), a raising
oracle imports the stream for an offer_redirect flow; a `None`-sentinel
oracle fails the offer_redirect flow but imports the stream for a
country_filter flow. -/
theorem C1_witness :
    (∃ db' fl, create_flow_for_campaign apiC1r dbEmpty campC46 "my flow" "offer_redirect"
        none none (some "7") 3 = (db', Except.ok fl) ∧
      fl.keitaro_id = some 42 ∧ fl.flow_type = "offer_redirect" ∧ fl ∈ db'.flows) ∧
    (create_flow_for_campaign apiC1n dbEmpty campC46 "my flow" "offer_redirect"
        none none (some "7") 3 = (dbEmpty, Except.error "create flow failed")) ∧
    (∃ db' fl, create_flow_for_campaign apiC1n dbEmpty campC46 "my flow" "country_filter"
        (some "https://x.com") (some "AU") none 3 = (db', Except.ok fl) ∧
      fl.keitaro_id = some 42 ∧ fl.flow_type = "country_filter" ∧ fl ∈ db'.flows) := by
  obtain ⟨hA, hB, hC⟩ := C1_ambiguous_import
  refine ⟨?_, ?_, ?_⟩
  · exact hA apiC1r dbEmpty campC46 "my flow" "7" [7] [streamC1] streamC1 3 rfl
      (by decide) rfl (by decide) (fun req => ⟨⟨true⟩, rfl, rfl⟩) rfl rfl rfl
  · exact hB apiC1n dbEmpty campC46 "my flow" "7" [7] 3 rfl (by decide) rfl
      (by decide) (fun _ => rfl)
  · exact hC apiC1n dbEmpty campC46 "my flow" "https://x.com" "AU" [streamC1] streamC1 3
      rfl (by decide) (by decide) (fun _ => rfl) rfl
      (by
        intro t ht
        rw [List.mem_singleton] at ht
        subst ht
        decide)
      rfl rfl

end KeitaroSpec
